import Mathlib

/-!
# Chat manager (`static/js/chat-manager.js`): a shallow embedding

The JavaScript classes `ChatSettings`, `ChatMessage`, `ChatSession`, `ChatAPI`
and `ChatManager` are embedded as Lean structures and functions.

Modelling conventions.

* Objects are values.  The manager is the only mutator of a session between two
  of its own operations, so a mutation of the object stored under a key of
  `this.sessions` is the replacement of the value stored under that key.
* `this.sessions` is a `Map`: an insertion-ordered list of entries, read and
  written through `JsMap.has`, `JsMap.get` and `JsMap.set`.  A method that
  starts with `if (!this.sessions.has(chat_id)) throw ...` and goes on with
  `this.sessions.get(chat_id)` is a case distinction on `JsMap.get`
  (`JsMap.has_eq_isSome_get`).
* The `results` of `updateAllSessions` is a plain object (`{}`), not a `Map`:
  it is a `JsObject`, the lookup of its own properties, written through
  `JsObject.set`.
* An `async` method is run to completion, without another call of the manager
  in between: it takes the world before the call and returns its outcome
  (`Except JsError _`: a returned value or a raised error) together with the
  world after the call.  The world is returned on failure too, because
  mutations made before a `throw` persist.
* `fetch` is an oracle (`Remote`): it sees every request issued so far and the
  current request and answers with a rejection (network failure) or a response.
  The log grows with every call, so no two calls see the same history and every
  sequence of answers is the behaviour of some oracle.  The decoded body of a
  response is typed after the three endpoints' contract.
* `Date.now()` and `new Date()` read a clock: reading number `k` yields
  `clock k` milliseconds since the Unix epoch.
* JavaScript numbers that the manager only stores and forwards (`temperature`,
  `top_p`, `max_tokens`) are decimal literals that are never computed with.
* `console.log` has no effect on the manager and is left out.
-/

namespace ChatManagerJs

/-! ## Data model -/

/-- A JavaScript number that is only stored and forwarded: `mantissa * 10 ^ exponent`. -/
structure JsNumber where
  mantissa : Int
  exponent : Int
  deriving DecidableEq, Repr

/-- `class ChatSettings` (lines 6-16). -/
structure ChatSettings where
  model : String
  temperature : JsNumber
  top_p : JsNumber
  max_tokens : JsNumber
  system_prompt : String
  web_search : Bool
  functions : List String
  deriving DecidableEq, Repr

/-- The `role` of a message: the literals `'user'` and `'assistant'`. -/
inductive Role where
  | user
  | assistant
  deriving DecidableEq, Repr

/-- An opaque usage record (`token_stats`, `session_stats`). -/
structure UsageRecord where
  raw : String
  deriving DecidableEq, Repr

/-- `class ChatMessage` (lines 18-26); `token_stats = null` is `none`. -/
structure ChatMessage where
  id : String
  role : Role
  content : String
  timestamp : String
  token_stats : Option UsageRecord
  deriving DecidableEq, Repr

/-- `class ChatSession` (lines 28-35); `stats = null` is `none`.  The empty
`session_id` is the only falsy one. -/
structure ChatSession where
  session_id : String
  settings : ChatSettings
  messages : List ChatMessage
  stats : Option UsageRecord
  deriving DecidableEq, Repr

/-- A raised JavaScript error. -/
inductive JsError where
  /-- A `new Error(message)` thrown by the repository's own code. -/
  | error (message : String)
  /-- The promise returned by `fetch` rejected (network failure). -/
  | fetchRejected (reason : String)
  /-- The promise returned by `response.json()` rejected (malformed body). -/
  | jsonRejected (reason : String)
  deriving DecidableEq, Repr

/-! ## The transport -/

/-- The JSON body of a request, one shape per endpoint (lines 50-58, 78-82, 102-110). -/
inductive RequestBody where
  | createSession (model : String) (temperature top_p max_tokens : JsNumber)
      (system_prompt : String) (web_search : Bool) (functions : List String)
  | sendMessage (session_id : String) (message : String) (functions : List String)
  | updateSession (session_id : String) (model : String)
      (temperature top_p max_tokens : JsNumber) (system_prompt : String) (web_search : Bool)
  deriving DecidableEq, Repr

/-- A `POST` request handed to `fetch`. -/
structure Request where
  url : String
  csrf_token : String
  body : RequestBody
  deriving DecidableEq, Repr

/-- What `fetch` does with a request: its promise rejects, or it resolves to a
response with `response.ok`, `response.statusText` and a body; the body is
`Except.error reason` when `response.json()` rejects. -/
inductive FetchOutcome (α : Type) where
  | rejected (reason : String)
  | response (ok : Bool) (statusText : String) (body : Except String α)

/-- Decoded body of a create-session response. -/
structure CreateSessionData where
  success : Bool
  session_id : String
  deriving DecidableEq, Repr

/-- The `assistant_message` of a send-message response. -/
structure AssistantMessage where
  content : String
  timestamp : String
  token_stats : Option UsageRecord
  deriving DecidableEq, Repr

/-- Decoded body of a send-message response. -/
structure SendMessageData where
  success : Bool
  assistant_message : AssistantMessage
  session_stats : Option UsageRecord
  deriving DecidableEq, Repr

/-- Decoded body of an update-session response. -/
structure UpdateSessionData where
  success : Bool
  deriving DecidableEq, Repr

/-- The remote service as seen through `fetch`, one oracle per endpoint: given
the requests issued before and the current request, the outcome of the call. -/
structure Remote where
  createSession : List Request → Request → FetchOutcome CreateSessionData
  sendMessage : List Request → Request → FetchOutcome SendMessageData
  updateSession : List Request → Request → FetchOutcome UpdateSessionData

/-- Everything outside the manager: the remote service and the clock. -/
structure Env where
  remote : Remote
  clock : Nat → Nat

/-! ## The manager's state -/

/-- `class ChatAPI`, its two fields (lines 38-41). -/
structure ChatAPI where
  csrf_token : String
  base_url : String
  deriving DecidableEq, Repr

/-- `Map.prototype.has` on an insertion-ordered list of entries. -/
def JsMap.has {β : Type} : List (String × β) → String → Bool
  | [], _ => false
  | e :: rest, key => if e.1 == key then true else JsMap.has rest key

/-- `Map.prototype.get`; `undefined` is `none`. -/
def JsMap.get {β : Type} : List (String × β) → String → Option β
  | [], _ => none
  | e :: rest, key => if e.1 == key then some e.2 else JsMap.get rest key

/-- `Map.prototype.set`: an existing key keeps its position, a new key goes last. -/
def JsMap.set {β : Type} : List (String × β) → String → β → List (String × β)
  | [], key, value => [(key, value)]
  | e :: rest, key, value =>
    if e.1 == key then (key, value) :: rest else e :: JsMap.set rest key value

/-- A plain object whose own properties hold booleans, as the `results` of
`updateAllSessions`: `own key` is the value of the own property `key`, `none`
when the object has no own property of that name.  The order in which the
object lists its keys (integer-like keys first) is not represented. -/
structure JsObject where
  own : String → Option Bool

/-- The object literal `{}`: no own property. -/
def JsObject.empty : JsObject :=
  { own := fun _ => none }

/-- The assignment `object[key] = value` of a boolean to a plain object whose
prototype is `Object.prototype`.  The key `__proto__` is an accessor property
of the prototype, and its setter ignores a value that is neither an object nor
`null`: that assignment creates no own property and raises nothing.  Every
other key becomes, or stays, an own property that holds `value`. -/
def JsObject.set (object : JsObject) (key : String) (value : Bool) : JsObject :=
  if key = "__proto__" then object
  else { own := fun other => if other = key then some value else object.own other }

/-- `class ChatManager`, its two fields (lines 123-126). -/
structure ChatManager where
  api : ChatAPI
  sessions : List (String × ChatSession)
  deriving DecidableEq, Repr

/-- The manager together with the two observable traces of its environment:
the requests handed to `fetch` so far, oldest first, and the number of clock
readings taken so far. -/
structure World where
  manager : ChatManager
  log : List Request
  tick : Nat
  deriving DecidableEq, Repr

/-- The mutation of the session object stored under `chat_id`. -/
def World.setSession (w : World) (chat_id : String) (session : ChatSession) : World :=
  { w with manager := { w.manager with sessions := JsMap.set w.manager.sessions chat_id session } }

/-- One `fetch` call leaves the request in the log. -/
def World.logRequest (w : World) (req : Request) : World :=
  { w with log := w.log ++ [req] }

/-! ## `Date` -/

/-- Decimal digits of `n`, left-padded with zeros to `width`. -/
def padStart (width n : Nat) : String :=
  let s := toString n
  String.mk (List.replicate (width - s.length) '0') ++ s

/-- Year, month and day of the proleptic Gregorian calendar for a number of
days since 1970-01-01. -/
def civilFromDays (days : Nat) : Nat × Nat × Nat :=
  let z := days + 719468
  let era := z / 146097
  let doe := z % 146097
  let yoe := (doe - doe / 1460 + doe / 36524 - doe / 146096) / 365
  let doy := doe - (365 * yoe + yoe / 4 - yoe / 100)
  let mp := (5 * doy + 2) / 153
  let d := doy - (153 * mp + 2) / 5 + 1
  let m := if mp < 10 then mp + 3 else mp - 9
  let y := yoe + era * 400
  (if m ≤ 2 then y + 1 else y, m, d)

/-- `Date.prototype.toISOString` for a time value of `ms` milliseconds since
the epoch: `YYYY-MM-DDTHH:mm:ss.sssZ`, the year written `+YYYYYY` beyond 9999. -/
def toISOString (ms : Nat) : String :=
  let day := ms / 86400000
  let rest := ms % 86400000
  let (y, m, d) := civilFromDays day
  let year := if y ≤ 9999 then padStart 4 y else "+" ++ padStart 6 y
  year ++ "-" ++ padStart 2 m ++ "-" ++ padStart 2 d ++ "T"
    ++ padStart 2 (rest / 3600000) ++ ":" ++ padStart 2 (rest % 3600000 / 60000) ++ ":"
    ++ padStart 2 (rest % 60000 / 1000) ++ "." ++ padStart 3 (rest % 1000) ++ "Z"

/-- `Date.now()`: the next clock reading. -/
def dateNow (env : Env) (w : World) : Nat × World :=
  (env.clock w.tick, { w with tick := w.tick + 1 })

/-- The relational operator `<` of JavaScript on two strings, as lists of
characters: lexicographic order by code point. -/
def jsStringLt : List Char → List Char → Bool
  | _, [] => false
  | [], _ :: _ => true
  | a :: as, b :: bs => if a.toNat < b.toNat then true else if b.toNat < a.toNat then false
      else jsStringLt as bs

/-! ## `class ChatAPI` -/

/-- The request `ChatAPI.createSession` hands to `fetch` (lines 44-59). -/
def ChatAPI.createSessionRequest (api : ChatAPI) (settings : ChatSettings) : Request :=
  { url := api.base_url ++ "/create-session/"
    csrf_token := api.csrf_token
    body := .createSession settings.model settings.temperature settings.top_p
      settings.max_tokens settings.system_prompt settings.web_search settings.functions }

/-- The request `ChatAPI.sendMessage` hands to `fetch` (lines 72-83). -/
def ChatAPI.sendMessageRequest (api : ChatAPI) (session_id message : String)
    (functions : List String) : Request :=
  { url := api.base_url ++ "/send-message/"
    csrf_token := api.csrf_token
    body := .sendMessage session_id message functions }

/-- The request `ChatAPI.updateSessionSettings` hands to `fetch` (lines 96-111);
`functions` is not part of it. -/
def ChatAPI.updateSessionRequest (api : ChatAPI) (session_id : String)
    (settings : ChatSettings) : Request :=
  { url := api.base_url ++ "/update-session/"
    csrf_token := api.csrf_token
    body := .updateSession session_id settings.model settings.temperature settings.top_p
      settings.max_tokens settings.system_prompt settings.web_search }

/-- `ChatAPI.createSession` (lines 43-69). -/
def ChatAPI.createSession (api : ChatAPI) (env : Env) (w : World) (settings : ChatSettings) :
    Except JsError String × World :=
  let req := api.createSessionRequest settings
  let w1 := w.logRequest req
  match env.remote.createSession w.log req with
  | .rejected reason => (.error (.fetchRejected reason), w1)
  | .response ok statusText body =>
    if ok then
      match body with
      | .error reason => (.error (.jsonRejected reason), w1)
      | .ok data =>
        if data.success then (.ok data.session_id, w1)
        else (.error (.error ("Failed to create session: " ++ statusText)), w1)
    else (.error (.error ("Failed to create session: " ++ statusText)), w1)

/-- `ChatAPI.sendMessage` (lines 71-93). -/
def ChatAPI.sendMessage (api : ChatAPI) (env : Env) (w : World) (session_id message : String)
    (functions : List String) : Except JsError SendMessageData × World :=
  let req := api.sendMessageRequest session_id message functions
  let w1 := w.logRequest req
  match env.remote.sendMessage w.log req with
  | .rejected reason => (.error (.fetchRejected reason), w1)
  | .response ok statusText body =>
    if ok then
      match body with
      | .error reason => (.error (.jsonRejected reason), w1)
      | .ok data =>
        if data.success then (.ok data, w1)
        else (.error (.error ("Failed to send message: " ++ statusText)), w1)
    else (.error (.error ("Failed to send message: " ++ statusText)), w1)

/-- `ChatAPI.updateSessionSettings` (lines 95-119). -/
def ChatAPI.updateSessionSettings (api : ChatAPI) (env : Env) (w : World) (session_id : String)
    (settings : ChatSettings) : Except JsError Bool × World :=
  let req := api.updateSessionRequest session_id settings
  let w1 := w.logRequest req
  match env.remote.updateSession w.log req with
  | .rejected reason => (.error (.fetchRejected reason), w1)
  | .response ok _ body =>
    if ok then
      match body with
      | .error reason => (.error (.jsonRejected reason), w1)
      | .ok data => (.ok (data.success || false), w1)
    else (.ok false, w1)

/-! ## `class ChatManager` -/

/-- The constructor of `ChatManager` (lines 123-126) in a fresh environment. -/
def ChatManager.new (csrf_token : String) : World :=
  { manager := { api := { csrf_token := csrf_token, base_url := "/playground/api" }, sessions := [] }
    log := []
    tick := 0 }

/-- `ChatManager.createChatSession` (lines 128-132). -/
def ChatManager.createChatSession (w : World) (chat_id : String) (settings : ChatSettings) :
    ChatSession × World :=
  let session : ChatSession := { session_id := "", settings := settings, messages := [], stats := none }
  (session, w.setSession chat_id session)

/-- `ChatManager.initializeSession` (lines 134-145).  `this.sessions.has(chat_id)`
is false exactly when `this.sessions.get(chat_id)` is `undefined`. -/
def ChatManager.initializeSession (env : Env) (w : World) (chat_id : String) :
    Except JsError String × World :=
  match JsMap.get w.manager.sessions chat_id with
  | none => (.error (.error ("Chat session " ++ chat_id ++ " not found")), w)
  | some session =>
    match ChatAPI.createSession w.manager.api env w session.settings with
    | (.error e, w1) => (.error e, w1)
    | (.ok session_id, w1) =>
      (.ok session_id, w1.setSession chat_id { session with session_id := session_id })

/-- The user message built at lines 160-165: its `id` is one clock reading,
its `timestamp` the next one. -/
def ChatManager.userMessage (env : Env) (w : World) (message : String) : ChatMessage :=
  { id := toString (dateNow env w).1
    role := .user
    content := message
    timestamp := toISOString (dateNow env (dateNow env w).2).1
    token_stats := none }

/-- The assistant message built at lines 176-182 from the response; its `id`
is a clock reading plus one. -/
def ChatManager.assistantMessage (env : Env) (w : World) (response : SendMessageData) :
    ChatMessage :=
  { id := toString ((dateNow env w).1 + 1)
    role := .assistant
    content := response.assistant_message.content
    timestamp := response.assistant_message.timestamp
    token_stats := response.assistant_message.token_stats }

/-- Lines 160-166 of `ChatManager.sendMessage`: the user message is built and
pushed on `session.messages`.  Returns `session` as it is afterwards. -/
def ChatManager.pushUserMessage (env : Env) (w : World) (chat_id message : String)
    (session : ChatSession) : ChatSession × World :=
  let user_message := ChatManager.userMessage env w message
  let w1 := (dateNow env (dateNow env w).2).2
  let session1 := { session with messages := session.messages ++ [user_message] }
  (session1, w1.setSession chat_id session1)

/-- Lines 176-188 of `ChatManager.sendMessage`: the assistant message is built
from the response and pushed, and `session.stats` is replaced when the
response carries `session_stats`.  Returns the assistant message. -/
def ChatManager.pushAssistantMessage (env : Env) (w : World) (chat_id : String)
    (session : ChatSession) (response : SendMessageData) : ChatMessage × World :=
  let assistant_message := ChatManager.assistantMessage env w response
  let w1 := (dateNow env w).2
  let session1 := { session with messages := session.messages ++ [assistant_message] }
  let session2 :=
    match response.session_stats with
    | some stats => { session1 with stats := some stats }
    | none => session1
  (assistant_message, w1.setSession chat_id session2)

/-- Lines 159-195 of `ChatManager.sendMessage`: what happens once `session`, the
object stored under `chat_id`, has a `session_id`. -/
def ChatManager.sendMessageExchange (env : Env) (w : World) (chat_id message : String)
    (session : ChatSession) : Except JsError ChatMessage × World :=
  let pushed := ChatManager.pushUserMessage env w chat_id message session
  match ChatAPI.sendMessage pushed.2.manager.api env pushed.2 pushed.1.session_id message
      pushed.1.settings.functions with
  | (.error e, w1) => (.error e, w1)
  | (.ok response, w1) =>
    let answered := ChatManager.pushAssistantMessage env w1 chat_id pushed.1 response
    (.ok answered.1, answered.2)

/-- `ChatManager.sendMessage` (lines 147-196).  The constant `session` is the
object stored under `chat_id`; after `initializeSession`, which mutates it, it
is that object with the new `session_id`. -/
def ChatManager.sendMessage (env : Env) (w : World) (chat_id message : String) :
    Except JsError ChatMessage × World :=
  match JsMap.get w.manager.sessions chat_id with
  | none => (.error (.error ("Chat session " ++ chat_id ++ " not found")), w)
  | some session =>
    if session.session_id = "" then
      -- lazy provisioning
      match ChatManager.initializeSession env w chat_id with
      | (.error e, w1) => (.error e, w1)
      | (.ok _, w1) =>
        ChatManager.sendMessageExchange env w1 chat_id message
          ((JsMap.get w1.manager.sessions chat_id).getD session)
    else ChatManager.sendMessageExchange env w chat_id message session

/-- `ChatManager.updateSettings` (lines 198-225). -/
def ChatManager.updateSettings (env : Env) (w : World) (chat_id : String)
    (settings : ChatSettings) : Except JsError Bool × World :=
  match JsMap.get w.manager.sessions chat_id with
  | none => (.error (.error ("Chat session " ++ chat_id ++ " not found")), w)
  | some session0 =>
    let session := { session0 with settings := settings }
    let w1 := w.setSession chat_id session
    if session.session_id ≠ "" then
      match ChatAPI.updateSessionSettings w1.manager.api env w1 session.session_id settings with
      | (.error e, w2) => (.error e, w2)
      | (.ok success, w2) => (.ok success, w2)
    else (.ok true, w1)

/-- `ChatManager.getSession` (lines 227-229). -/
def ChatManager.getSession (w : World) (chat_id : String) : Option ChatSession :=
  JsMap.get w.manager.sessions chat_id

/-- `ChatManager.clearMessages` (lines 231-236). -/
def ChatManager.clearMessages (w : World) (chat_id : String) : World :=
  if JsMap.has w.manager.sessions chat_id then
    match JsMap.get w.manager.sessions chat_id with
    | some session => w.setSession chat_id { session with messages := [] }
    | none => w
  else w

/-- `ChatManager.hasSession` (lines 238-240). -/
def ChatManager.hasSession (w : World) (chat_id : String) : Bool :=
  JsMap.has w.manager.sessions chat_id

/-- `ChatManager.getSessionId` (lines 242-245); `null` is `none`. -/
def ChatManager.getSessionId (w : World) (chat_id : String) : Option String :=
  match JsMap.get w.manager.sessions chat_id with
  | some session => some session.session_id
  | none => none

/-- `ChatManager.forceUpdateSessionSettings` (lines 247-268). -/
def ChatManager.forceUpdateSessionSettings (env : Env) (w : World) (chat_id : String) :
    Except JsError Bool × World :=
  match JsMap.get w.manager.sessions chat_id with
  | none => (.error (.error ("Chat session " ++ chat_id ++ " not found")), w)
  | some session =>
    if session.session_id ≠ "" then
      match ChatAPI.updateSessionSettings w.manager.api env w session.session_id
          session.settings with
      | (.error e, w1) => (.error e, w1)
      | (.ok success, w1) => (.ok success, w1)
    else (.ok false, w)

/-- The `for ... of this.sessions` loop of `updateAllSessions` (lines 273-293):
the entries still to visit, the `results` object so far, the world so far. -/
def ChatManager.updateAllSessionsLoop (env : Env) (api : ChatAPI) :
    List (String × ChatSession) → JsObject → World → JsObject × World
  | [], results, w => (results, w)
  | (chat_id, session) :: rest, results, w =>
    if session.session_id ≠ "" then
      -- try / catch
      match ChatAPI.updateSessionSettings api env w session.session_id session.settings with
      | (.ok success, w1) =>
        ChatManager.updateAllSessionsLoop env api rest (JsObject.set results chat_id success) w1
      | (.error _, w1) =>
        ChatManager.updateAllSessionsLoop env api rest (JsObject.set results chat_id false) w1
    else
      ChatManager.updateAllSessionsLoop env api rest (JsObject.set results chat_id true) w

/-- `ChatManager.updateAllSessions` (lines 270-296); `results` starts as `{}`. -/
def ChatManager.updateAllSessions (env : Env) (w : World) :
    Except JsError JsObject × World :=
  match ChatManager.updateAllSessionsLoop env w.manager.api w.manager.sessions
      JsObject.empty w with
  | (results, w1) => (.ok results, w1)

/-- The update-session requests that a sweep over `entries` issues: one for every
session that has a `session_id`, in the order of the entries. -/
def ChatManager.updateRequests (api : ChatAPI) (entries : List (String × ChatSession)) :
    List Request :=
  entries.filterMap (fun entry =>
    if entry.2.session_id = "" then none
    else some (api.updateSessionRequest entry.2.session_id entry.2.settings))

/-- The entry that the specification gives a session in the result of
`updateAllSessions`, `w` being the world when the session is visited: true
without `session_id`, false when the propagation raises, and otherwise the
boolean that `ChatAPI.updateSessionSettings` returns. -/
def ChatManager.expectedResult (env : Env) (api : ChatAPI) (w : World) (session : ChatSession) :
    Bool :=
  if session.session_id = "" then true
  else
    match (ChatAPI.updateSessionSettings api env w session.session_id session.settings).1 with
    | .ok success => success
    | .error _ => false

/-! ## Sequences of manager operations -/

/-- A call of one of the manager's methods. -/
inductive Op where
  | createChatSession (chat_id : String) (settings : ChatSettings)
  | initializeSession (chat_id : String)
  | sendMessage (chat_id message : String)
  | updateSettings (chat_id : String) (settings : ChatSettings)
  | getSession (chat_id : String)
  | clearMessages (chat_id : String)
  | hasSession (chat_id : String)
  | getSessionId (chat_id : String)
  | forceUpdateSessionSettings (chat_id : String)
  | updateAllSessions
  deriving DecidableEq, Repr

/-- The world after one call, whether it returned or raised. -/
def step (env : Env) (w : World) : Op → World
  | .createChatSession chat_id settings => (ChatManager.createChatSession w chat_id settings).2
  | .initializeSession chat_id => (ChatManager.initializeSession env w chat_id).2
  | .sendMessage chat_id message => (ChatManager.sendMessage env w chat_id message).2
  | .updateSettings chat_id settings => (ChatManager.updateSettings env w chat_id settings).2
  | .getSession _ => w
  | .clearMessages chat_id => ChatManager.clearMessages w chat_id
  | .hasSession _ => w
  | .getSessionId _ => w
  | .forceUpdateSessionSettings chat_id => (ChatManager.forceUpdateSessionSettings env w chat_id).2
  | .updateAllSessions => (ChatManager.updateAllSessions env w).2

/-- The world after a sequence of calls, each run to completion before the next. -/
def run (env : Env) (w : World) (ops : List Op) : World :=
  ops.foldl (step env) w

/-! ## Concrete environments -/

/-- The settings of the scenario: model `gpt-x`, temperature 0.7, top_p 1, max_tokens 256. -/
def scenarioSettings : ChatSettings :=
  { model := "gpt-x", temperature := ⟨7, -1⟩, top_p := ⟨1, 0⟩, max_tokens := ⟨256, 0⟩,
    system_prompt := "", web_search := false, functions := [] }

/-- A remote that answers every call with success: create-session with the
identifier `abc`, send-message with the content `hi there`. -/
def scenarioRemote : Remote :=
  { createSession := fun _ _ => .response true "OK" (.ok { success := true, session_id := "abc" })
    sendMessage := fun _ _ => .response true "OK" (.ok
      { success := true
        assistant_message :=
          { content := "hi there", timestamp := "2023-11-14T22:13:19.000Z", token_stats := none }
        session_stats := none })
    updateSession := fun _ _ => .response true "OK" (.ok { success := true }) }

/-- The scenario's environment; the clock stands at 2023-11-14T22:13:20Z and
advances by one millisecond per reading. -/
def scenarioEnv : Env :=
  { remote := scenarioRemote, clock := fun k => 1700000000000 + k }

/-- A manager in which `C1` is registered with the scenario's settings. -/
def scenarioWorld : World :=
  (ChatManager.createChatSession (ChatManager.new "token") "C1" scenarioSettings).2

/-- A remote whose every call is answered with status 500. -/
def failingRemote : Remote :=
  { createSession := fun _ _ => .response false "Internal Server Error" (.error "no body")
    sendMessage := fun _ _ => .response false "Internal Server Error" (.error "no body")
    updateSession := fun _ _ => .response false "Internal Server Error" (.error "no body") }

/-- The scenario's clock with the failing remote. -/
def failingEnv : Env :=
  { remote := failingRemote, clock := fun k => 1700000000000 + k }

/-- The scenario's manager after `sendMessage("C1", "hello")`: `C1` is provisioned. -/
def provisionedWorld : World :=
  (ChatManager.sendMessage scenarioEnv scenarioWorld "C1" "hello").2

/-- Settings that differ from the scenario's. -/
def otherSettings : ChatSettings :=
  { model := "gpt-y", temperature := ⟨2, -1⟩, top_p := ⟨9, -1⟩, max_tokens := ⟨64, 0⟩,
    system_prompt := "Be brief.", web_search := true, functions := ["lookup"] }

/-- The scenario's remote, except that create-session reports success with an
empty identifier. -/
def emptyIdEnv : Env :=
  { remote :=
      { scenarioRemote with
        createSession := fun _ _ => .response true "OK" (.ok { success := true, session_id := "" }) }
    clock := fun k => 1700000000000 + k }

/-- A sequence of calls on the scenario's manager that never re-registers `C1`. -/
def scenarioOps : List Op :=
  [.initializeSession "C1", .sendMessage "C1" "again", .updateSettings "C1" otherSettings,
   .clearMessages "C1", .createChatSession "C2" otherSettings, .sendMessage "C3" "nobody",
   .forceUpdateSessionSettings "C1", .updateAllSessions, .getSessionId "C1"]

/-- A remote whose create-session numbers the sessions `s0`, `s1`, ... by the
number of requests seen, and whose update-session is unreachable for `s0`,
refuses `s2` and accepts every other session. -/
def sweepEnv : Env :=
  { remote :=
      { createSession := fun log _ =>
          .response true "OK" (.ok { success := true, session_id := "s" ++ toString log.length })
        sendMessage := scenarioRemote.sendMessage
        updateSession := fun _ req =>
          match req.body with
          | .updateSession session_id _ _ _ _ _ _ =>
            if session_id = "s0" then .rejected "Failed to fetch"
            else if session_id = "s2" then .response true "OK" (.ok { success := false })
            else .response true "OK" (.ok { success := true })
          | _ => .response false "Bad Request" (.error "no body") }
    clock := fun k => 1700000000000 + k }

/-- A manager with four sessions: `C1`, `C3` and `C4` provisioned (`s0`, `s1`,
`s2`), `C2` not. -/
def sweepWorld : World :=
  run sweepEnv (ChatManager.new "token")
    [.createChatSession "C1" scenarioSettings, .createChatSession "C2" otherSettings,
     .createChatSession "C3" otherSettings, .createChatSession "C4" scenarioSettings,
     .initializeSession "C1", .initializeSession "C3", .initializeSession "C4"]

/-- A manager in which the chat identifiers `__proto__` and `C2` are
registered, neither of them provisioned. -/
def protoWorld : World :=
  run scenarioEnv (ChatManager.new "token")
    [.createChatSession "__proto__" scenarioSettings, .createChatSession "C2" otherSettings]

/-! ## Lemmas on the map -/

theorem JsMap.has_eq_isSome_get {β : Type} (m : List (String × β)) (key : String) :
    JsMap.has m key = (JsMap.get m key).isSome := by
  induction m with
  | nil => rfl
  | cons e rest ih =>
    by_cases h : e.1 = key <;> simp [JsMap.has, JsMap.get, h, ih]

theorem JsMap.get_set_self {β : Type} (m : List (String × β)) (key : String) (value : β) :
    JsMap.get (JsMap.set m key value) key = some value := by
  induction m with
  | nil => simp [JsMap.set, JsMap.get]
  | cons e rest ih =>
    by_cases h : e.1 = key <;> simp [JsMap.set, JsMap.get, h, ih]

theorem JsMap.get_set_of_ne {β : Type} (m : List (String × β)) (key other : String) (value : β)
    (hne : other ≠ key) : JsMap.get (JsMap.set m key value) other = JsMap.get m other := by
  have hne2 : ¬ key = other := fun h => hne h.symm
  induction m with
  | nil => simp [JsMap.set, JsMap.get, hne2]
  | cons e rest ih =>
    by_cases h : e.1 = key
    · have h2 : ¬ e.1 = other := fun h3 => hne (h3.symm.trans h)
      simp [JsMap.set, JsMap.get, h, h2, hne2]
    · by_cases h2 : e.1 = other <;> simp [JsMap.set, JsMap.get, h, h2, ih, hne]

theorem JsMap.has_set {β : Type} (m : List (String × β)) (key other : String) (value : β) :
    JsMap.has (JsMap.set m key value) other = (other == key || JsMap.has m other) := by
  by_cases h : other = key
  · subst h
    simp [JsMap.has_eq_isSome_get, JsMap.get_set_self]
  · simp [JsMap.has_eq_isSome_get, JsMap.get_set_of_ne _ _ _ _ h, h]

/-! ## Lemmas on the transport -/

@[simp] theorem World.setSession_log (w : World) (chat_id : String) (session : ChatSession) :
    (w.setSession chat_id session).log = w.log := rfl

@[simp] theorem World.setSession_tick (w : World) (chat_id : String) (session : ChatSession) :
    (w.setSession chat_id session).tick = w.tick := rfl

@[simp] theorem World.setSession_api (w : World) (chat_id : String) (session : ChatSession) :
    (w.setSession chat_id session).manager.api = w.manager.api := rfl

@[simp] theorem World.setSession_sessions (w : World) (chat_id : String) (session : ChatSession) :
    (w.setSession chat_id session).manager.sessions
      = JsMap.set w.manager.sessions chat_id session := rfl

@[simp] theorem World.logRequest_manager (w : World) (req : Request) :
    (w.logRequest req).manager = w.manager := rfl

@[simp] theorem World.logRequest_log (w : World) (req : Request) :
    (w.logRequest req).log = w.log ++ [req] := rfl

@[simp] theorem World.logRequest_tick (w : World) (req : Request) :
    (w.logRequest req).tick = w.tick := rfl

@[simp] theorem dateNow_fst (env : Env) (w : World) : (dateNow env w).1 = env.clock w.tick := rfl

@[simp] theorem dateNow_manager (env : Env) (w : World) : (dateNow env w).2.manager = w.manager :=
  rfl

@[simp] theorem dateNow_log (env : Env) (w : World) : (dateNow env w).2.log = w.log := rfl

@[simp] theorem dateNow_tick (env : Env) (w : World) : (dateNow env w).2.tick = w.tick + 1 := rfl

/-- Whatever the outcome, `ChatAPI.createSession` issues exactly its request. -/
theorem ChatAPI.createSession_world (api : ChatAPI) (env : Env) (w : World)
    (settings : ChatSettings) :
    (ChatAPI.createSession api env w settings).2
      = w.logRequest (api.createSessionRequest settings) := by
  dsimp only [ChatAPI.createSession]
  repeat' split
  all_goals rfl

/-- Whatever the outcome, `ChatAPI.sendMessage` issues exactly its request. -/
theorem ChatAPI.sendMessage_world (api : ChatAPI) (env : Env) (w : World)
    (session_id message : String) (functions : List String) :
    (ChatAPI.sendMessage api env w session_id message functions).2
      = w.logRequest (api.sendMessageRequest session_id message functions) := by
  dsimp only [ChatAPI.sendMessage]
  repeat' split
  all_goals rfl

/-- Whatever the outcome, `ChatAPI.updateSessionSettings` issues exactly its request. -/
theorem ChatAPI.updateSessionSettings_world (api : ChatAPI) (env : Env) (w : World)
    (session_id : String) (settings : ChatSettings) :
    (ChatAPI.updateSessionSettings api env w session_id settings).2
      = w.logRequest (api.updateSessionRequest session_id settings) := by
  dsimp only [ChatAPI.updateSessionSettings]
  repeat' split
  all_goals rfl

/-! ## What each method does to the world -/

theorem ChatManager.initializeSession_of_none (env : Env) (w : World) (chat_id : String)
    (h : JsMap.get w.manager.sessions chat_id = none) :
    ChatManager.initializeSession env w chat_id
      = (.error (.error ("Chat session " ++ chat_id ++ " not found")), w) := by
  simp only [ChatManager.initializeSession, h]

theorem ChatManager.initializeSession_of_error (env : Env) (w : World) (chat_id : String)
    (session : ChatSession) (e : JsError)
    (h : JsMap.get w.manager.sessions chat_id = some session)
    (hc : (ChatAPI.createSession w.manager.api env w session.settings).1 = .error e) :
    ChatManager.initializeSession env w chat_id
      = (.error e, w.logRequest (w.manager.api.createSessionRequest session.settings)) := by
  have hw := ChatAPI.createSession_world w.manager.api env w session.settings
  simp only [ChatManager.initializeSession, h]
  split
  · next e1 w1 heq => rw [heq] at hc hw; simp_all
  · next id w1 heq => rw [heq] at hc; simp at hc

theorem ChatManager.initializeSession_of_ok (env : Env) (w : World) (chat_id : String)
    (session : ChatSession) (session_id : String)
    (h : JsMap.get w.manager.sessions chat_id = some session)
    (hc : (ChatAPI.createSession w.manager.api env w session.settings).1 = .ok session_id) :
    ChatManager.initializeSession env w chat_id
      = (.ok session_id,
          (w.logRequest (w.manager.api.createSessionRequest session.settings)).setSession chat_id
            { session with session_id := session_id }) := by
  have hw := ChatAPI.createSession_world w.manager.api env w session.settings
  simp only [ChatManager.initializeSession, h]
  split
  · next e1 w1 heq => rw [heq] at hc; simp at hc
  · next id w1 heq => rw [heq] at hc hw; simp_all

theorem ChatManager.sendMessageExchange_of_error (env : Env) (w : World)
    (chat_id message : String) (session : ChatSession) (e : JsError)
    (hc : (ChatAPI.sendMessage w.manager.api env
        (ChatManager.pushUserMessage env w chat_id message session).2
        session.session_id message session.settings.functions).1 = .error e) :
    ChatManager.sendMessageExchange env w chat_id message session
      = (.error e, (ChatManager.pushUserMessage env w chat_id message session).2.logRequest
          (w.manager.api.sendMessageRequest session.session_id message
            session.settings.functions)) := by
  have hw : (ChatAPI.sendMessage
      (ChatManager.pushUserMessage env w chat_id message session).2.manager.api env
      (ChatManager.pushUserMessage env w chat_id message session).2
      (ChatManager.pushUserMessage env w chat_id message session).1.session_id message
      (ChatManager.pushUserMessage env w chat_id message session).1.settings.functions).2 = _ :=
    ChatAPI.sendMessage_world w.manager.api env
      (ChatManager.pushUserMessage env w chat_id message session).2
      session.session_id message session.settings.functions
  have hc2 : (ChatAPI.sendMessage
      (ChatManager.pushUserMessage env w chat_id message session).2.manager.api env
      (ChatManager.pushUserMessage env w chat_id message session).2
      (ChatManager.pushUserMessage env w chat_id message session).1.session_id message
      (ChatManager.pushUserMessage env w chat_id message session).1.settings.functions).1 = _ := hc
  simp only [ChatManager.sendMessageExchange]
  split
  · next e1 w1 heq => rw [heq] at hc2 hw; simp_all
  · next r w1 heq => rw [heq] at hc2; simp at hc2

theorem ChatManager.sendMessageExchange_of_ok (env : Env) (w : World)
    (chat_id message : String) (session : ChatSession) (response : SendMessageData)
    (hc : (ChatAPI.sendMessage w.manager.api env
        (ChatManager.pushUserMessage env w chat_id message session).2
        session.session_id message session.settings.functions).1 = .ok response) :
    ChatManager.sendMessageExchange env w chat_id message session
      = (.ok (ChatManager.pushAssistantMessage env
            ((ChatManager.pushUserMessage env w chat_id message session).2.logRequest
              (w.manager.api.sendMessageRequest session.session_id message
                session.settings.functions))
            chat_id (ChatManager.pushUserMessage env w chat_id message session).1 response).1,
          (ChatManager.pushAssistantMessage env
            ((ChatManager.pushUserMessage env w chat_id message session).2.logRequest
              (w.manager.api.sendMessageRequest session.session_id message
                session.settings.functions))
            chat_id (ChatManager.pushUserMessage env w chat_id message session).1 response).2) := by
  have hw : (ChatAPI.sendMessage
      (ChatManager.pushUserMessage env w chat_id message session).2.manager.api env
      (ChatManager.pushUserMessage env w chat_id message session).2
      (ChatManager.pushUserMessage env w chat_id message session).1.session_id message
      (ChatManager.pushUserMessage env w chat_id message session).1.settings.functions).2 = _ :=
    ChatAPI.sendMessage_world w.manager.api env
      (ChatManager.pushUserMessage env w chat_id message session).2
      session.session_id message session.settings.functions
  have hc2 : (ChatAPI.sendMessage
      (ChatManager.pushUserMessage env w chat_id message session).2.manager.api env
      (ChatManager.pushUserMessage env w chat_id message session).2
      (ChatManager.pushUserMessage env w chat_id message session).1.session_id message
      (ChatManager.pushUserMessage env w chat_id message session).1.settings.functions).1 = _ := hc
  simp only [ChatManager.sendMessageExchange]
  split
  · next e1 w1 heq => rw [heq] at hc2; simp at hc2
  · next r w1 heq => rw [heq] at hc2 hw; simp_all

/-- On a session that already has a `session_id`, `sendMessage` is the exchange alone. -/
theorem ChatManager.sendMessage_of_provisioned (env : Env) (w : World) (chat_id message : String)
    (session : ChatSession) (h : JsMap.get w.manager.sessions chat_id = some session)
    (hid : session.session_id ≠ "") :
    ChatManager.sendMessage env w chat_id message
      = ChatManager.sendMessageExchange env w chat_id message session := by
  simp only [ChatManager.sendMessage, h, hid, if_false]

/-- On a session without `session_id`, a raising create-session call ends `sendMessage`. -/
theorem ChatManager.sendMessage_of_create_error (env : Env) (w : World)
    (chat_id message : String) (session : ChatSession) (e : JsError)
    (h : JsMap.get w.manager.sessions chat_id = some session)
    (hid : session.session_id = "")
    (hc : (ChatAPI.createSession w.manager.api env w session.settings).1 = .error e) :
    ChatManager.sendMessage env w chat_id message
      = (.error e, w.logRequest (w.manager.api.createSessionRequest session.settings)) := by
  simp only [ChatManager.sendMessage, h, hid, if_true,
    ChatManager.initializeSession_of_error env w chat_id session e h hc]

/-- On a session without `session_id`, a create-session call that returns is
followed by the exchange, on the session with the returned identifier. -/
theorem ChatManager.sendMessage_of_create_ok (env : Env) (w : World)
    (chat_id message : String) (session : ChatSession) (session_id : String)
    (h : JsMap.get w.manager.sessions chat_id = some session)
    (hid : session.session_id = "")
    (hc : (ChatAPI.createSession w.manager.api env w session.settings).1 = .ok session_id) :
    ChatManager.sendMessage env w chat_id message
      = ChatManager.sendMessageExchange env
          ((w.logRequest (w.manager.api.createSessionRequest session.settings)).setSession chat_id
            { session with session_id := session_id })
          chat_id message { session with session_id := session_id } := by
  simp only [ChatManager.sendMessage, h, hid, if_true,
    ChatManager.initializeSession_of_ok env w chat_id session session_id h hc,
    World.setSession_sessions, JsMap.get_set_self, Option.getD_some]

theorem ChatManager.updateSettings_sessions (env : Env) (w : World) (chat_id : String)
    (settings : ChatSettings) (session : ChatSession)
    (h : JsMap.get w.manager.sessions chat_id = some session) :
    (ChatManager.updateSettings env w chat_id settings).2.manager.sessions
      = JsMap.set w.manager.sessions chat_id { session with settings := settings } := by
  simp only [ChatManager.updateSettings, h]
  split
  · have hw := ChatAPI.updateSessionSettings_world
      (w.setSession chat_id { session with settings := settings }).manager.api env
      (w.setSession chat_id { session with settings := settings }) session.session_id settings
    split
    · next heq => rw [heq] at hw; simp only at hw; rw [hw]; rfl
    · next heq => rw [heq] at hw; simp only at hw; rw [hw]; rfl
  · rfl

/-- A send-message call returns only what the remote answered with status ok and
`success`. -/
theorem ChatAPI.sendMessage_ok_remote (api : ChatAPI) (env : Env) (w : World)
    (session_id message : String) (functions : List String) (response : SendMessageData)
    (h : (ChatAPI.sendMessage api env w session_id message functions).1 = .ok response) :
    ∃ statusText, env.remote.sendMessage w.log
        (api.sendMessageRequest session_id message functions)
        = .response true statusText (.ok response) ∧ response.success = true := by
  dsimp only [ChatAPI.sendMessage] at h
  split at h
  · simp at h
  · next ok statusText body heq =>
    split at h
    · next hok =>
      split at h
      · simp at h
      · next data =>
        split at h
        · next hs =>
          simp only [Except.ok.injEq] at h
          subst h
          subst hok
          exact ⟨statusText, heq, hs⟩
        · simp at h
    · simp at h

theorem ChatManager.userMessage_eq (env : Env) (w : World) (message : String) :
    ChatManager.userMessage env w message
      = { id := toString (env.clock w.tick), role := .user, content := message,
          timestamp := toISOString (env.clock (w.tick + 1)), token_stats := none } := rfl

/-- The exchange issues exactly one request, the send-message one, whatever its outcome. -/
theorem ChatManager.sendMessageExchange_log (env : Env) (w : World) (chat_id message : String)
    (session : ChatSession) :
    (ChatManager.sendMessageExchange env w chat_id message session).2.log
      = w.log ++ [w.manager.api.sendMessageRequest session.session_id message
          session.settings.functions] := by
  rcases hcase : (ChatAPI.sendMessage w.manager.api env
      (ChatManager.pushUserMessage env w chat_id message session).2
      session.session_id message session.settings.functions).1 with e | response
  · rw [ChatManager.sendMessageExchange_of_error env w chat_id message session e hcase]
    rfl
  · rw [ChatManager.sendMessageExchange_of_ok env w chat_id message session response hcase]
    rfl

/-- A failed exchange: the send-message call raised that error, and the session
stored under `chat_id` is `session` with the user message pushed. -/
theorem ChatManager.sendMessageExchange_error_spec (env : Env) (w : World)
    (chat_id message : String) (session : ChatSession) (e : JsError)
    (hfail : (ChatManager.sendMessageExchange env w chat_id message session).1 = .error e) :
    (ChatAPI.sendMessage w.manager.api env
        (ChatManager.pushUserMessage env w chat_id message session).2
        session.session_id message session.settings.functions).1 = .error e ∧
    JsMap.get (ChatManager.sendMessageExchange env w chat_id message session).2.manager.sessions
        chat_id
      = some { session with
          messages := session.messages ++ [ChatManager.userMessage env w message] } := by
  rcases hcase : (ChatAPI.sendMessage w.manager.api env
      (ChatManager.pushUserMessage env w chat_id message session).2
      session.session_id message session.settings.functions).1 with e1 | response
  · rw [ChatManager.sendMessageExchange_of_error env w chat_id message session e1 hcase] at hfail ⊢
    simp only [Except.error.injEq] at hfail
    subst hfail
    refine ⟨rfl, ?_⟩
    simp only [World.logRequest_manager, ChatManager.pushUserMessage, World.setSession_sessions,
      JsMap.get_set_self]
  · rw [ChatManager.sendMessageExchange_of_ok env w chat_id message session response hcase]
      at hfail
    simp at hfail

/-- A successful exchange: the remote answered the send-message request with
`response`, the returned message is built from it, and the session stored under
`chat_id` is `session` with the user message and the returned message pushed. -/
theorem ChatManager.sendMessageExchange_ok_spec (env : Env) (w : World)
    (chat_id message : String) (session : ChatSession) (m : ChatMessage)
    (hok : (ChatManager.sendMessageExchange env w chat_id message session).1 = .ok m) :
    ∃ response statusText,
      env.remote.sendMessage w.log
          (w.manager.api.sendMessageRequest session.session_id message session.settings.functions)
        = .response true statusText (.ok response) ∧
      m = { id := toString (env.clock (w.tick + 2) + 1), role := .assistant,
            content := response.assistant_message.content,
            timestamp := response.assistant_message.timestamp,
            token_stats := response.assistant_message.token_stats } ∧
      JsMap.get (ChatManager.sendMessageExchange env w chat_id message session).2.manager.sessions
          chat_id
        = some { session_id := session.session_id, settings := session.settings,
                 messages := session.messages ++ [ChatManager.userMessage env w message, m],
                 stats := match response.session_stats with
                   | some stats => some stats
                   | none => session.stats } := by
  rcases hcase : (ChatAPI.sendMessage w.manager.api env
      (ChatManager.pushUserMessage env w chat_id message session).2
      session.session_id message session.settings.functions).1 with e1 | response
  · rw [ChatManager.sendMessageExchange_of_error env w chat_id message session e1 hcase] at hok
    simp at hok
  · obtain ⟨statusText, hremote, -⟩ := ChatAPI.sendMessage_ok_remote _ _ _ _ _ _ _ hcase
    rw [ChatManager.sendMessageExchange_of_ok env w chat_id message session response hcase]
      at hok ⊢
    simp only [Except.ok.injEq] at hok
    refine ⟨response, statusText, hremote, hok.symm, ?_⟩
    subst hok
    simp only [ChatManager.pushAssistantMessage, World.setSession_sessions, JsMap.get_set_self]
    cases response.session_stats <;> simp [ChatManager.pushUserMessage]

/-- A successful `sendMessage` on a registered session: the last request is the
send-message one, the remote answered it with `response`, the returned message
is built from `response`, and the stored session is the former one with the
user message and the returned message pushed, in that order. -/
theorem ChatManager.sendMessage_ok_spec (env : Env) (w : World) (chat_id message : String)
    (session : ChatSession) (m : ChatMessage)
    (h : JsMap.get w.manager.sessions chat_id = some session)
    (hok : (ChatManager.sendMessage env w chat_id message).1 = .ok m) :
    ∃ response statusText log0 session_id,
      (ChatManager.sendMessage env w chat_id message).2.log
        = log0 ++ [w.manager.api.sendMessageRequest session_id message
            session.settings.functions] ∧
      env.remote.sendMessage log0
          (w.manager.api.sendMessageRequest session_id message session.settings.functions)
        = .response true statusText (.ok response) ∧
      m = { id := toString (env.clock (w.tick + 2) + 1), role := .assistant,
            content := response.assistant_message.content,
            timestamp := response.assistant_message.timestamp,
            token_stats := response.assistant_message.token_stats } ∧
      JsMap.get (ChatManager.sendMessage env w chat_id message).2.manager.sessions chat_id
        = some { session_id := session_id, settings := session.settings,
                 messages := session.messages ++
                   [{ id := toString (env.clock w.tick), role := .user, content := message,
                      timestamp := toISOString (env.clock (w.tick + 1)), token_stats := none }, m],
                 stats := match response.session_stats with
                   | some stats => some stats
                   | none => session.stats } := by
  by_cases hid : session.session_id = ""
  · rcases hc : (ChatAPI.createSession w.manager.api env w session.settings).1 with e | sid
    · rw [ChatManager.sendMessage_of_create_error env w chat_id message session e h hid hc] at hok
      simp at hok
    · rw [ChatManager.sendMessage_of_create_ok env w chat_id message session sid h hid hc]
        at hok ⊢
      obtain ⟨response, statusText, hremote, hm, hget⟩ :=
        ChatManager.sendMessageExchange_ok_spec env _ chat_id message _ m hok
      exact ⟨response, statusText, _, sid,
        ChatManager.sendMessageExchange_log env _ chat_id message _, hremote, hm, hget⟩
  · rw [ChatManager.sendMessage_of_provisioned env w chat_id message session h hid] at hok ⊢
    obtain ⟨response, statusText, hremote, hm, hget⟩ :=
      ChatManager.sendMessageExchange_ok_spec env w chat_id message session m hok
    exact ⟨response, statusText, _, session.session_id,
      ChatManager.sendMessageExchange_log env w chat_id message session, hremote, hm, hget⟩

/-- A create-session call returns only an identifier the remote sent with
status ok and `success`. -/
theorem ChatAPI.createSession_ok_remote (api : ChatAPI) (env : Env) (w : World)
    (settings : ChatSettings) (session_id : String)
    (h : (ChatAPI.createSession api env w settings).1 = .ok session_id) :
    ∃ statusText data, env.remote.createSession w.log (api.createSessionRequest settings)
        = .response true statusText (.ok data) ∧ data.success = true ∧
        data.session_id = session_id := by
  dsimp only [ChatAPI.createSession] at h
  split at h
  · simp at h
  · next ok statusText body heq =>
    split at h
    · next hok =>
      split at h
      · simp at h
      · next data =>
        split at h
        · next hs =>
          simp only [Except.ok.injEq] at h
          subst hok
          exact ⟨statusText, data, heq, hs, h⟩
        · simp at h
    · simp at h

/-! ## What each method does to the stored sessions -/

theorem ChatManager.sendMessageExchange_get_other (env : Env) (w : World)
    (chat_id message : String) (session : ChatSession) (key : String) (hne : key ≠ chat_id) :
    JsMap.get (ChatManager.sendMessageExchange env w chat_id message session).2.manager.sessions key
      = JsMap.get w.manager.sessions key := by
  rcases hcase : (ChatAPI.sendMessage w.manager.api env
      (ChatManager.pushUserMessage env w chat_id message session).2
      session.session_id message session.settings.functions).1 with e | response
  · rw [ChatManager.sendMessageExchange_of_error env w chat_id message session e hcase]
    simp only [World.logRequest_manager, ChatManager.pushUserMessage, World.setSession_sessions,
      JsMap.get_set_of_ne _ _ _ _ hne]
    rfl
  · rw [ChatManager.sendMessageExchange_of_ok env w chat_id message session response hcase]
    simp only [ChatManager.pushAssistantMessage, World.logRequest_manager, dateNow_manager,
      ChatManager.pushUserMessage, World.setSession_sessions, JsMap.get_set_of_ne _ _ _ _ hne]

theorem ChatManager.sendMessageExchange_get_self (env : Env) (w : World)
    (chat_id message : String) (session : ChatSession) :
    ∃ session1,
      JsMap.get (ChatManager.sendMessageExchange env w chat_id message session).2.manager.sessions
        chat_id = some session1 ∧ session1.session_id = session.session_id := by
  rcases hcase : (ChatManager.sendMessageExchange env w chat_id message session).1 with e | m
  · exact ⟨_, (ChatManager.sendMessageExchange_error_spec env w chat_id message session e
      hcase).2, rfl⟩
  · obtain ⟨response, statusText, -, -, hget⟩ :=
      ChatManager.sendMessageExchange_ok_spec env w chat_id message session m hcase
    exact ⟨_, hget, rfl⟩

theorem ChatManager.initializeSession_get_other (env : Env) (w : World) (chat_id key : String)
    (hne : key ≠ chat_id) :
    JsMap.get (ChatManager.initializeSession env w chat_id).2.manager.sessions key
      = JsMap.get w.manager.sessions key := by
  rcases h : JsMap.get w.manager.sessions chat_id with _ | session
  · rw [ChatManager.initializeSession_of_none env w chat_id h]
  · rcases hc : (ChatAPI.createSession w.manager.api env w session.settings).1 with e | sid
    · rw [ChatManager.initializeSession_of_error env w chat_id session e h hc]
      rfl
    · rw [ChatManager.initializeSession_of_ok env w chat_id session sid h hc]
      simp only [World.setSession_sessions, JsMap.get_set_of_ne _ _ _ _ hne]
      rfl

/-- After `initializeSession` the session stored under `chat_id` is the former
one, or the former one with an identifier that a create-session call returned. -/
theorem ChatManager.initializeSession_get_self (env : Env) (w : World) (chat_id : String)
    (session : ChatSession) (h : JsMap.get w.manager.sessions chat_id = some session) :
    JsMap.get (ChatManager.initializeSession env w chat_id).2.manager.sessions chat_id
        = some session ∨
    ∃ session_id,
      (ChatAPI.createSession w.manager.api env w session.settings).1 = .ok session_id ∧
      JsMap.get (ChatManager.initializeSession env w chat_id).2.manager.sessions chat_id
        = some { session with session_id := session_id } := by
  rcases hc : (ChatAPI.createSession w.manager.api env w session.settings).1 with e | sid
  · left
    rw [ChatManager.initializeSession_of_error env w chat_id session e h hc]
    exact h
  · right
    refine ⟨sid, rfl, ?_⟩
    rw [ChatManager.initializeSession_of_ok env w chat_id session sid h hc]
    simp only [World.setSession_sessions, JsMap.get_set_self]

theorem ChatManager.sendMessage_get_other (env : Env) (w : World) (chat_id message key : String)
    (hne : key ≠ chat_id) :
    JsMap.get (ChatManager.sendMessage env w chat_id message).2.manager.sessions key
      = JsMap.get w.manager.sessions key := by
  rcases h : JsMap.get w.manager.sessions chat_id with _ | session
  · simp only [ChatManager.sendMessage, h]
  · by_cases hid : session.session_id = ""
    · rcases hc : (ChatAPI.createSession w.manager.api env w session.settings).1 with e | sid
      · rw [ChatManager.sendMessage_of_create_error env w chat_id message session e h hid hc]
        rfl
      · rw [ChatManager.sendMessage_of_create_ok env w chat_id message session sid h hid hc,
          ChatManager.sendMessageExchange_get_other env _ chat_id message _ key hne]
        simp only [World.setSession_sessions, JsMap.get_set_of_ne _ _ _ _ hne]
        rfl
    · rw [ChatManager.sendMessage_of_provisioned env w chat_id message session h hid,
        ChatManager.sendMessageExchange_get_other env w chat_id message session key hne]

/-- After `sendMessage` a session is still stored under `chat_id`, and it keeps
the identifier it had when it had one. -/
theorem ChatManager.sendMessage_get_self (env : Env) (w : World) (chat_id message : String)
    (session : ChatSession) (h : JsMap.get w.manager.sessions chat_id = some session) :
    ∃ session1,
      JsMap.get (ChatManager.sendMessage env w chat_id message).2.manager.sessions chat_id
        = some session1 ∧
      (session.session_id ≠ "" → session1.session_id = session.session_id) := by
  by_cases hid : session.session_id = ""
  · rcases hc : (ChatAPI.createSession w.manager.api env w session.settings).1 with e | sid
    · rw [ChatManager.sendMessage_of_create_error env w chat_id message session e h hid hc]
      exact ⟨session, h, fun _ => rfl⟩
    · rw [ChatManager.sendMessage_of_create_ok env w chat_id message session sid h hid hc]
      obtain ⟨session1, hget, -⟩ := ChatManager.sendMessageExchange_get_self env
        ((w.logRequest (w.manager.api.createSessionRequest session.settings)).setSession chat_id
          { session with session_id := sid }) chat_id message { session with session_id := sid }
      exact ⟨session1, hget, fun hne => absurd hid hne⟩
  · rw [ChatManager.sendMessage_of_provisioned env w chat_id message session h hid]
    obtain ⟨session1, hget, hsid⟩ :=
      ChatManager.sendMessageExchange_get_self env w chat_id message session
    exact ⟨session1, hget, fun _ => hsid⟩

theorem ChatManager.updateSettings_manager_of_none (env : Env) (w : World) (chat_id : String)
    (settings : ChatSettings) (h : JsMap.get w.manager.sessions chat_id = none) :
    (ChatManager.updateSettings env w chat_id settings).2 = w := by
  simp only [ChatManager.updateSettings, h]

theorem ChatManager.clearMessages_sessions (w : World) (chat_id : String) :
    (ChatManager.clearMessages w chat_id).manager.sessions = w.manager.sessions ∨
    ∃ session, JsMap.get w.manager.sessions chat_id = some session ∧
      (ChatManager.clearMessages w chat_id).manager.sessions
        = JsMap.set w.manager.sessions chat_id { session with messages := [] } := by
  unfold ChatManager.clearMessages
  split
  · split
    · next session heq => exact Or.inr ⟨session, heq, rfl⟩
    · exact Or.inl rfl
  · exact Or.inl rfl

theorem ChatManager.forceUpdateSessionSettings_manager (env : Env) (w : World)
    (chat_id : String) :
    (ChatManager.forceUpdateSessionSettings env w chat_id).2.manager = w.manager := by
  unfold ChatManager.forceUpdateSessionSettings
  split
  · rfl
  · next session heq =>
    split
    · have hw := ChatAPI.updateSessionSettings_world w.manager.api env w session.session_id
        session.settings
      split
      · next heq2 => rw [heq2] at hw; simp only at hw; rw [hw]; rfl
      · next heq2 => rw [heq2] at hw; simp only at hw; rw [hw]; rfl
    · rfl

theorem ChatManager.updateAllSessionsLoop_manager (env : Env) (api : ChatAPI)
    (entries : List (String × ChatSession)) (results : JsObject) (w : World) :
    (ChatManager.updateAllSessionsLoop env api entries results w).2.manager = w.manager := by
  induction entries generalizing results w with
  | nil => rfl
  | cons entry rest ih =>
    obtain ⟨chat_id, session⟩ := entry
    unfold ChatManager.updateAllSessionsLoop
    split
    · have hw := ChatAPI.updateSessionSettings_world api env w session.session_id
        session.settings
      split
      · next heq => rw [heq] at hw; simp only at hw; rw [ih, hw]; rfl
      · next heq => rw [heq] at hw; simp only at hw; rw [ih, hw]; rfl
    · exact ih _ _

theorem ChatManager.updateAllSessions_manager (env : Env) (w : World) :
    (ChatManager.updateAllSessions env w).2.manager = w.manager := by
  unfold ChatManager.updateAllSessions
  exact ChatManager.updateAllSessionsLoop_manager env w.manager.api w.manager.sessions
    JsObject.empty w

/-- One call keeps every stored session stored; its identifier is kept too,
unless the call re-registers the key, the session had no identifier, or the
call is `initializeSession` on the key and stores the identifier that the
create-session call returned. -/
theorem step_session (env : Env) (w : World) (op : Op) (key : String) (session : ChatSession)
    (h : JsMap.get w.manager.sessions key = some session) :
    ∃ session1, JsMap.get (step env w op).manager.sessions key = some session1 ∧
      (session1.session_id = session.session_id ∨
        (∃ settings, op = .createChatSession key settings) ∨
        session.session_id = "" ∨
        (op = .initializeSession key ∧
          (ChatAPI.createSession w.manager.api env w session.settings).1
            = .ok session1.session_id)) := by
  cases op with
  | createChatSession chat_id settings =>
    by_cases hk : key = chat_id
    · subst hk
      exact ⟨_, JsMap.get_set_self _ _ _, Or.inr (Or.inl ⟨settings, rfl⟩)⟩
    · exact ⟨session, (JsMap.get_set_of_ne _ _ _ _ hk).trans h, Or.inl rfl⟩
  | initializeSession chat_id =>
    by_cases hk : key = chat_id
    · subst hk
      rcases ChatManager.initializeSession_get_self env w key session h with hsame | ⟨sid, hc, hget⟩
      · exact ⟨session, hsame, Or.inl rfl⟩
      · exact ⟨_, hget, Or.inr (Or.inr (Or.inr ⟨rfl, hc⟩))⟩
    · exact ⟨session, (ChatManager.initializeSession_get_other env w chat_id key hk).trans h,
        Or.inl rfl⟩
  | sendMessage chat_id message =>
    by_cases hk : key = chat_id
    · subst hk
      obtain ⟨session1, hget, hsid⟩ := ChatManager.sendMessage_get_self env w key message session h
      by_cases hid : session.session_id = ""
      · exact ⟨session1, hget, Or.inr (Or.inr (Or.inl hid))⟩
      · exact ⟨session1, hget, Or.inl (hsid hid)⟩
    · exact ⟨session, (ChatManager.sendMessage_get_other env w chat_id message key hk).trans h,
        Or.inl rfl⟩
  | updateSettings chat_id settings =>
    rcases h0 : JsMap.get w.manager.sessions chat_id with _ | session0
    · refine ⟨session, ?_, Or.inl rfl⟩
      show JsMap.get (ChatManager.updateSettings env w chat_id settings).2.manager.sessions key = _
      rw [ChatManager.updateSettings_manager_of_none env w chat_id settings h0]
      exact h
    · have hs := ChatManager.updateSettings_sessions env w chat_id settings session0 h0
      by_cases hk : key = chat_id
      · subst hk
        rw [h] at h0
        cases h0
        refine ⟨{ session with settings := settings }, ?_, Or.inl rfl⟩
        show JsMap.get (ChatManager.updateSettings env w key settings).2.manager.sessions key = _
        rw [hs, JsMap.get_set_self]
      · refine ⟨session, ?_, Or.inl rfl⟩
        show JsMap.get (ChatManager.updateSettings env w chat_id settings).2.manager.sessions key
          = _
        rw [hs, JsMap.get_set_of_ne _ _ _ _ hk]
        exact h
  | getSession chat_id => exact ⟨session, h, Or.inl rfl⟩
  | clearMessages chat_id =>
    rcases ChatManager.clearMessages_sessions w chat_id with hs | ⟨session0, h0, hs⟩
    · refine ⟨session, ?_, Or.inl rfl⟩
      show JsMap.get (ChatManager.clearMessages w chat_id).manager.sessions key = _
      rw [hs]
      exact h
    · by_cases hk : key = chat_id
      · subst hk
        rw [h] at h0
        cases h0
        refine ⟨{ session with messages := [] }, ?_, Or.inl rfl⟩
        show JsMap.get (ChatManager.clearMessages w key).manager.sessions key = _
        rw [hs, JsMap.get_set_self]
      · refine ⟨session, ?_, Or.inl rfl⟩
        show JsMap.get (ChatManager.clearMessages w chat_id).manager.sessions key = _
        rw [hs, JsMap.get_set_of_ne _ _ _ _ hk]
        exact h
  | hasSession chat_id => exact ⟨session, h, Or.inl rfl⟩
  | getSessionId chat_id => exact ⟨session, h, Or.inl rfl⟩
  | forceUpdateSessionSettings chat_id =>
    refine ⟨session, ?_, Or.inl rfl⟩
    show JsMap.get (ChatManager.forceUpdateSessionSettings env w chat_id).2.manager.sessions key
      = _
    rw [ChatManager.forceUpdateSessionSettings_manager]
    exact h
  | updateAllSessions =>
    refine ⟨session, ?_, Or.inl rfl⟩
    show JsMap.get (ChatManager.updateAllSessions env w).2.manager.sessions key = _
    rw [ChatManager.updateAllSessions_manager]
    exact h

/-- One call removes no key of the sessions map. -/
theorem step_has (env : Env) (w : World) (op : Op) (key : String)
    (h : JsMap.has w.manager.sessions key = true) :
    JsMap.has (step env w op).manager.sessions key = true := by
  rw [JsMap.has_eq_isSome_get, Option.isSome_iff_exists] at h ⊢
  obtain ⟨session, hs⟩ := h
  obtain ⟨session1, hget, -⟩ := step_session env w op key session hs
  exact ⟨session1, hget⟩

/-- No sequence of calls removes a key of the sessions map. -/
theorem run_has (env : Env) (ops : List Op) (w : World) (key : String)
    (h : JsMap.has w.manager.sessions key = true) :
    JsMap.has (run env w ops).manager.sessions key = true := by
  induction ops generalizing w with
  | nil => exact h
  | cons op rest ih => exact ih (step env w op) (step_has env w op key h)

/-! ## The keys of the sessions map stay distinct -/

theorem JsMap.keys_set_of_not_has {β : Type} (m : List (String × β)) (key : String) (value : β)
    (h : JsMap.has m key = false) :
    (JsMap.set m key value).map Prod.fst = m.map Prod.fst ++ [key] := by
  induction m with
  | nil => rfl
  | cons e rest ih =>
    by_cases hk : e.1 = key
    · simp [JsMap.has, hk] at h
    · have hrest : JsMap.has rest key = false := by simpa [JsMap.has, hk] using h
      simp [JsMap.set, hk, ih hrest]

theorem JsMap.has_eq_false_iff {β : Type} (m : List (String × β)) (key : String) :
    JsMap.has m key = false ↔ key ∉ m.map Prod.fst := by
  induction m with
  | nil => simp [JsMap.has]
  | cons e rest ih =>
    by_cases hk : e.1 = key
    · simp [JsMap.has, hk]
    · have hk2 : ¬ key = e.1 := fun h => hk h.symm
      simp [JsMap.has, hk, hk2, ih]

theorem JsMap.keys_set_of_has {β : Type} (m : List (String × β)) (key : String) (value : β)
    (h : JsMap.has m key = true) :
    (JsMap.set m key value).map Prod.fst = m.map Prod.fst := by
  induction m with
  | nil => simp [JsMap.has] at h
  | cons e rest ih =>
    by_cases hk : e.1 = key
    · simp [JsMap.set, hk]
    · have hrest : JsMap.has rest key = true := by simpa [JsMap.has, hk] using h
      simp [JsMap.set, hk, ih hrest]

theorem JsMap.nodup_keys_set {β : Type} (m : List (String × β)) (key : String) (value : β)
    (h : (m.map Prod.fst).Nodup) : ((JsMap.set m key value).map Prod.fst).Nodup := by
  rcases hhas : JsMap.has m key with _ | _
  · rw [JsMap.keys_set_of_not_has m key value hhas]
    have hnot := (JsMap.has_eq_false_iff m key).mp hhas
    exact List.Nodup.append h (List.nodup_singleton key) (by simpa using hnot)
  · rw [JsMap.keys_set_of_has m key value hhas]
    exact h

theorem ChatManager.sendMessageExchange_nodup (env : Env) (w : World)
    (chat_id message : String) (session : ChatSession)
    (h : (w.manager.sessions.map Prod.fst).Nodup) :
    ((ChatManager.sendMessageExchange env w chat_id message session).2.manager.sessions.map
      Prod.fst).Nodup := by
  rcases hcase : (ChatAPI.sendMessage w.manager.api env
      (ChatManager.pushUserMessage env w chat_id message session).2
      session.session_id message session.settings.functions).1 with e | response
  · rw [ChatManager.sendMessageExchange_of_error env w chat_id message session e hcase]
    exact JsMap.nodup_keys_set _ _ _ h
  · rw [ChatManager.sendMessageExchange_of_ok env w chat_id message session response hcase]
    exact JsMap.nodup_keys_set _ _ _ (JsMap.nodup_keys_set _ _ _ h)

/-- One call keeps the keys of the sessions map distinct. -/
theorem step_nodup (env : Env) (w : World) (op : Op)
    (h : (w.manager.sessions.map Prod.fst).Nodup) :
    ((step env w op).manager.sessions.map Prod.fst).Nodup := by
  cases op with
  | createChatSession chat_id settings => exact JsMap.nodup_keys_set _ _ _ h
  | initializeSession chat_id =>
    show ((ChatManager.initializeSession env w chat_id).2.manager.sessions.map Prod.fst).Nodup
    rcases hs : JsMap.get w.manager.sessions chat_id with _ | session
    · rw [ChatManager.initializeSession_of_none env w chat_id hs]
      exact h
    · rcases hc : (ChatAPI.createSession w.manager.api env w session.settings).1 with e | sid
      · rw [ChatManager.initializeSession_of_error env w chat_id session e hs hc]
        exact h
      · rw [ChatManager.initializeSession_of_ok env w chat_id session sid hs hc]
        exact JsMap.nodup_keys_set _ _ _ h
  | sendMessage chat_id message =>
    show ((ChatManager.sendMessage env w chat_id message).2.manager.sessions.map Prod.fst).Nodup
    rcases hs : JsMap.get w.manager.sessions chat_id with _ | session
    · simp only [ChatManager.sendMessage, hs]
      exact h
    · by_cases hid : session.session_id = ""
      · rcases hc : (ChatAPI.createSession w.manager.api env w session.settings).1 with e | sid
        · rw [ChatManager.sendMessage_of_create_error env w chat_id message session e hs hid hc]
          exact h
        · rw [ChatManager.sendMessage_of_create_ok env w chat_id message session sid hs hid hc]
          exact ChatManager.sendMessageExchange_nodup env _ chat_id message _
            (JsMap.nodup_keys_set _ _ _ h)
      · rw [ChatManager.sendMessage_of_provisioned env w chat_id message session hs hid]
        exact ChatManager.sendMessageExchange_nodup env w chat_id message session h
  | updateSettings chat_id settings =>
    show ((ChatManager.updateSettings env w chat_id settings).2.manager.sessions.map
      Prod.fst).Nodup
    rcases hs : JsMap.get w.manager.sessions chat_id with _ | session
    · rw [ChatManager.updateSettings_manager_of_none env w chat_id settings hs]
      exact h
    · rw [ChatManager.updateSettings_sessions env w chat_id settings session hs]
      exact JsMap.nodup_keys_set _ _ _ h
  | getSession chat_id => exact h
  | clearMessages chat_id =>
    show ((ChatManager.clearMessages w chat_id).manager.sessions.map Prod.fst).Nodup
    rcases ChatManager.clearMessages_sessions w chat_id with hs | ⟨session, -, hs⟩
    · rw [hs]
      exact h
    · rw [hs]
      exact JsMap.nodup_keys_set _ _ _ h
  | hasSession chat_id => exact h
  | getSessionId chat_id => exact h
  | forceUpdateSessionSettings chat_id =>
    show ((ChatManager.forceUpdateSessionSettings env w chat_id).2.manager.sessions.map
      Prod.fst).Nodup
    rw [ChatManager.forceUpdateSessionSettings_manager]
    exact h
  | updateAllSessions =>
    show ((ChatManager.updateAllSessions env w).2.manager.sessions.map Prod.fst).Nodup
    rw [ChatManager.updateAllSessions_manager]
    exact h

/-- Every manager state reached from the constructor by manager calls has
distinct keys in its sessions map. -/
theorem reachable_nodup (env : Env) (csrf_token : String) (ops : List Op) :
    ((run env (ChatManager.new csrf_token) ops).manager.sessions.map Prod.fst).Nodup := by
  have key : ∀ (ops : List Op) (w : World), (w.manager.sessions.map Prod.fst).Nodup →
      ((run env w ops).manager.sessions.map Prod.fst).Nodup := by
    intro ops
    induction ops with
    | nil => exact fun w h => h
    | cons op rest ih => exact fun w h => ih (step env w op) (step_nodup env w op h)
  exact key ops _ List.nodup_nil

/-! ## The sweep of `updateAllSessions` -/

theorem JsObject.set_own_self (object : JsObject) (key : String) (value : Bool)
    (hkey : key ≠ "__proto__") : (JsObject.set object key value).own key = some value := by
  simp [JsObject.set, hkey]

theorem JsObject.set_own_of_ne (object : JsObject) (key other : String) (value : Bool)
    (hne : other ≠ key) : (JsObject.set object key value).own other = object.own other := by
  by_cases hkey : key = "__proto__" <;> simp [JsObject.set, hkey, hne]

/-- No assignment gives the object an own property `__proto__`. -/
theorem JsObject.set_own_proto (object : JsObject) (key : String) (value : Bool) :
    (JsObject.set object key value).own "__proto__" = object.own "__proto__" := by
  by_cases hkey : key = "__proto__"
  · simp [JsObject.set, hkey]
  · exact JsObject.set_own_of_ne object key "__proto__" value (fun h => hkey h.symm)

/-- The outcome of an update-session call depends on the world through its log only. -/
theorem ChatAPI.updateSessionSettings_fst_of_log (api : ChatAPI) (env : Env) (w w1 : World)
    (session_id : String) (settings : ChatSettings) (h : w.log = w1.log) :
    (ChatAPI.updateSessionSettings api env w session_id settings).1
      = (ChatAPI.updateSessionSettings api env w1 session_id settings).1 := by
  dsimp only [ChatAPI.updateSessionSettings]
  rw [h]
  repeat' split
  all_goals rfl

/-- One turn of the loop: the value assigned is the expected one, and a request
is issued exactly when the session has a `session_id`. -/
theorem ChatManager.updateAllSessionsLoop_cons (env : Env) (api : ChatAPI) (chat_id : String)
    (session : ChatSession) (rest : List (String × ChatSession))
    (results : JsObject) (w : World) :
    ChatManager.updateAllSessionsLoop env api ((chat_id, session) :: rest) results w
      = ChatManager.updateAllSessionsLoop env api rest
          (JsObject.set results chat_id (ChatManager.expectedResult env api w session))
          (if session.session_id = "" then w
            else w.logRequest (api.updateSessionRequest session.session_id session.settings)) := by
  rw [ChatManager.updateAllSessionsLoop]
  by_cases hid : session.session_id = ""
  · simp [hid, ChatManager.expectedResult]
  · have hw := ChatAPI.updateSessionSettings_world api env w session.session_id session.settings
    simp only [ne_eq, hid, not_false_eq_true, if_true, if_false, ChatManager.expectedResult]
    split
    · next success w1 heq => rw [heq] at hw ⊢; simp only at hw; rw [hw]
    · next e w1 heq => rw [heq] at hw ⊢; simp only at hw; rw [hw]

theorem ChatManager.updateRequests_cons (api : ChatAPI) (chat_id : String)
    (session : ChatSession) (rest : List (String × ChatSession)) :
    ChatManager.updateRequests api ((chat_id, session) :: rest)
      = (if session.session_id = "" then []
          else [api.updateSessionRequest session.session_id session.settings])
        ++ ChatManager.updateRequests api rest := by
  by_cases hid : session.session_id = "" <;> simp [ChatManager.updateRequests, hid]

/-- The loop over entries with distinct keys: the keys that are not visited
keep what `results` had, no own property `__proto__` is created, the requests
issued are those of the provisioned entries, and the entry number `i`, when its
key is not `__proto__`, is recorded with the value expected in the world in
which it is visited. -/
theorem ChatManager.updateAllSessionsLoop_spec (env : Env) (api : ChatAPI)
    (entries : List (String × ChatSession)) (results : JsObject) (w : World)
    (hkeys : (entries.map Prod.fst).Nodup) :
    (∀ key, key ∉ entries.map Prod.fst →
      (ChatManager.updateAllSessionsLoop env api entries results w).1.own key
        = results.own key) ∧
    (ChatManager.updateAllSessionsLoop env api entries results w).1.own "__proto__"
      = results.own "__proto__" ∧
    (ChatManager.updateAllSessionsLoop env api entries results w).2.log
      = w.log ++ ChatManager.updateRequests api entries ∧
    (∀ (i : Nat) (hi : i < entries.length), entries[i].1 ≠ "__proto__" →
      (ChatManager.updateAllSessionsLoop env api entries results w).1.own entries[i].1
        = some (ChatManager.expectedResult env api
            { w with log := w.log ++ ChatManager.updateRequests api (entries.take i) }
            entries[i].2)) := by
  induction entries generalizing results w with
  | nil =>
    refine ⟨fun _ _ => rfl, rfl,
      by simp [ChatManager.updateAllSessionsLoop, ChatManager.updateRequests], ?_⟩
    intro i hi
    exact absurd hi (Nat.not_lt_zero i)
  | cons entry rest ih =>
    obtain ⟨chat_id, session⟩ := entry
    have hnotin : chat_id ∉ rest.map Prod.fst := (List.nodup_cons.mp hkeys).1
    have hrestkeys : (rest.map Prod.fst).Nodup := (List.nodup_cons.mp hkeys).2
    rw [ChatManager.updateAllSessionsLoop_cons]
    obtain ⟨ihother, ihproto, ihlog, ihentry⟩ := ih
      (JsObject.set results chat_id (ChatManager.expectedResult env api w session))
      (if session.session_id = "" then w
        else w.logRequest (api.updateSessionRequest session.session_id session.settings))
      hrestkeys
    have hlog1 : (if session.session_id = "" then w
        else w.logRequest (api.updateSessionRequest session.session_id session.settings)).log
        = w.log ++ (if session.session_id = "" then []
            else [api.updateSessionRequest session.session_id session.settings]) := by
      by_cases hid : session.session_id = "" <;> simp [hid]
    refine ⟨?_, ?_, ?_, ?_⟩
    · intro key hkey
      have hne : key ≠ chat_id := fun heq => hkey (by simp [heq])
      have hrest : key ∉ rest.map Prod.fst := fun hmem => hkey (List.mem_cons_of_mem _ hmem)
      rw [ihother key hrest, JsObject.set_own_of_ne _ _ _ _ hne]
    · rw [ihproto, JsObject.set_own_proto]
    · rw [ihlog, hlog1, ChatManager.updateRequests_cons, List.append_assoc]
    · intro i hi
      cases i with
      | zero =>
        intro hproto
        have hproto1 : chat_id ≠ "__proto__" := hproto
        show JsObject.own _ chat_id = some (ChatManager.expectedResult env api _ session)
        rw [ihother chat_id hnotin, JsObject.set_own_self _ _ _ hproto1]
        simp only [List.take_zero, ChatManager.updateRequests, List.filterMap_nil,
          List.append_nil]
      | succ j =>
        intro hproto
        have hj : j < rest.length := Nat.lt_of_succ_lt_succ hi
        have hproto1 : rest[j].1 ≠ "__proto__" := hproto
        have hlogeq : (if session.session_id = "" then w
            else w.logRequest (api.updateSessionRequest session.session_id session.settings)).log
              ++ ChatManager.updateRequests api (rest.take j)
            = w.log ++ ChatManager.updateRequests api (((chat_id, session) :: rest).take (j + 1)) := by
          rw [hlog1, List.take_succ_cons, ChatManager.updateRequests_cons, List.append_assoc]
        show JsObject.own _ rest[j].1 = some (ChatManager.expectedResult env api _ rest[j].2)
        rw [ihentry j hj hproto1]
        congr 1
        simp only [ChatManager.expectedResult]
        by_cases hsid : rest[j].2.session_id = ""
        · simp [hsid]
        · simp only [hsid, if_false]
          rw [ChatAPI.updateSessionSettings_fst_of_log api env _
            (World.mk w.manager
              (w.log ++ ChatManager.updateRequests api (((chat_id, session) :: rest).take (j + 1)))
              w.tick) _ _ hlogeq]

/-- What `updateAllSessions()` does in every manager state: it returns and does
not raise; its result has no own property `__proto__` and none for a chat
identifier that is not registered; and for the session visited as number `i`,
when its chat identifier is not `__proto__`, the result holds, in the world in
which the session is visited, true when the session has no `session_id`, false
when the update-session call raises, and the boolean returned by that call
otherwise. -/
theorem ChatManager.updateAllSessions_entries (env : Env) (w : World)
    (hkeys : (w.manager.sessions.map Prod.fst).Nodup) :
    ∃ results, (ChatManager.updateAllSessions env w).1 = .ok results ∧
      results.own "__proto__" = none ∧
      (∀ key, ChatManager.hasSession w key = false → results.own key = none) ∧
      ∀ (i : Nat) (hi : i < w.manager.sessions.length),
        w.manager.sessions[i].1 ≠ "__proto__" →
        (w.manager.sessions[i].2.session_id = "" →
          results.own w.manager.sessions[i].1 = some true) ∧
        (∀ e, w.manager.sessions[i].2.session_id ≠ "" →
          (ChatAPI.updateSessionSettings w.manager.api env
            (World.mk w.manager
              (w.log ++ ChatManager.updateRequests w.manager.api (w.manager.sessions.take i))
              w.tick)
            w.manager.sessions[i].2.session_id w.manager.sessions[i].2.settings).1 = .error e →
          results.own w.manager.sessions[i].1 = some false) ∧
        (∀ success, w.manager.sessions[i].2.session_id ≠ "" →
          (ChatAPI.updateSessionSettings w.manager.api env
            (World.mk w.manager
              (w.log ++ ChatManager.updateRequests w.manager.api (w.manager.sessions.take i))
              w.tick)
            w.manager.sessions[i].2.session_id w.manager.sessions[i].2.settings).1
              = .ok success →
          results.own w.manager.sessions[i].1 = some success) := by
  obtain ⟨hother, hproto, -, hentry⟩ := ChatManager.updateAllSessionsLoop_spec env w.manager.api
    w.manager.sessions JsObject.empty w hkeys
  refine ⟨(ChatManager.updateAllSessionsLoop env w.manager.api w.manager.sessions
    JsObject.empty w).1, rfl, hproto, ?_, ?_⟩
  · intro key hkey
    rw [hother key ((JsMap.has_eq_false_iff _ _).mp hkey)]
    rfl
  · intro i hi hne
    have hi1 := hentry i hi hne
    refine ⟨?_, ?_, ?_⟩
    · intro hid
      rw [hi1]
      simp [ChatManager.expectedResult, hid]
    · intro e hid hc
      rw [hi1]
      simp only [ChatManager.expectedResult, hid, if_false, hc]
    · intro success hid hc
      rw [hi1]
      simp only [ChatManager.expectedResult, hid, if_false, hc]

/-- The sweep over four sessions: the propagation raises for `C1`, `C2` has no
`session_id`, the remote accepts `C3` and refuses `C4`; `C5` is not registered. -/
theorem ChatManager.updateAllSessions_on_sweep :
    ∃ results, (ChatManager.updateAllSessions sweepEnv sweepWorld).1 = .ok results ∧
      results.own "C1" = some false ∧ results.own "C2" = some true ∧
      results.own "C3" = some true ∧ results.own "C4" = some false ∧
      results.own "C5" = none :=
  ⟨_, rfl, by decide, by decide, by decide, by decide, by decide⟩

/-! ## The claims -/

/-- C4: for a registered chat identifier, after `updateSettings(C, S)` the
session returned by `getSession(C)` has settings `S`, whatever the remote
update-session call did (returned true, returned false, raised, or was not
made because the session is unprovisioned). -/
theorem updateSettings_replaces_settings (env : Env) (w : World) (chat_id : String)
    (settings : ChatSettings) (hreg : ChatManager.hasSession w chat_id = true) :
    ∃ session, ChatManager.getSession (ChatManager.updateSettings env w chat_id settings).2 chat_id
        = some session ∧ session.settings = settings := by
  rw [ChatManager.hasSession, JsMap.has_eq_isSome_get, Option.isSome_iff_exists] at hreg
  obtain ⟨session, h⟩ := hreg
  refine ⟨{ session with settings := settings }, ?_, rfl⟩
  rw [ChatManager.getSession, ChatManager.updateSettings_sessions env w chat_id settings session h,
    JsMap.get_set_self]

/-- C4 at a provisioned session whose remote update fails: the settings are replaced. -/
theorem updateSettings_replaces_settings_witness :
    ChatManager.hasSession provisionedWorld "C1" = true ∧
    ∃ session, ChatManager.getSession
        (ChatManager.updateSettings failingEnv provisionedWorld "C1" otherSettings).2 "C1"
        = some session ∧ session.settings = otherSettings :=
  ⟨by decide, updateSettings_replaces_settings failingEnv provisionedWorld "C1" otherSettings
    (by decide)⟩

/-- C8: on a registered session without `session_id`,
`forceUpdateSessionSettings(C)` returns false and leaves the whole world as it
was: no request is issued and the manager is unchanged. -/
theorem forceUpdateSessionSettings_unprovisioned (env : Env) (w : World) (chat_id : String)
    (h : ChatManager.getSessionId w chat_id = some "") :
    ChatManager.forceUpdateSessionSettings env w chat_id = (.ok false, w) ∧
    (ChatManager.forceUpdateSessionSettings env w chat_id).2.log = w.log ∧
    (ChatManager.forceUpdateSessionSettings env w chat_id).2.manager = w.manager := by
  have key : ChatManager.forceUpdateSessionSettings env w chat_id = (.ok false, w) := by
    unfold ChatManager.getSessionId at h
    unfold ChatManager.forceUpdateSessionSettings
    split at h
    · next session heq =>
      have hid : session.session_id = "" := by simpa using h
      simp [heq, hid]
    · simp at h
  rw [key]
  exact ⟨rfl, rfl, rfl⟩

/-- C8 at the scenario's freshly registered session. -/
theorem forceUpdateSessionSettings_unprovisioned_witness :
    ChatManager.getSessionId scenarioWorld "C1" = some "" ∧
    (ChatManager.forceUpdateSessionSettings scenarioEnv scenarioWorld "C1"
        = (.ok false, scenarioWorld) ∧
      (ChatManager.forceUpdateSessionSettings scenarioEnv scenarioWorld "C1").2.log
        = scenarioWorld.log ∧
      (ChatManager.forceUpdateSessionSettings scenarioEnv scenarioWorld "C1").2.manager
        = scenarioWorld.manager) :=
  ⟨by decide, forceUpdateSessionSettings_unprovisioned scenarioEnv scenarioWorld "C1" (by decide)⟩

/-- C10: on a registered session without `session_id`, when the create-session
call of the lazy provisioning raises, `sendMessage` raises that error, the
only request issued is the create-session one (no send-message call), no clock
reading is taken and the manager is unchanged: the session of `C` is as
before. -/
theorem sendMessage_create_failure_changes_nothing (env : Env) (w : World)
    (chat_id message : String) (session : ChatSession) (e : JsError)
    (h : ChatManager.getSession w chat_id = some session)
    (hid : session.session_id = "")
    (hc : (ChatAPI.createSession w.manager.api env w session.settings).1 = .error e) :
    (ChatManager.sendMessage env w chat_id message).1 = .error e ∧
    (ChatManager.sendMessage env w chat_id message).2.log
      = w.log ++ [w.manager.api.createSessionRequest session.settings] ∧
    (ChatManager.sendMessage env w chat_id message).2.manager = w.manager ∧
    (ChatManager.sendMessage env w chat_id message).2.tick = w.tick ∧
    ChatManager.getSession (ChatManager.sendMessage env w chat_id message).2 chat_id
      = some session := by
  rw [ChatManager.sendMessage_of_create_error env w chat_id message session e h hid hc]
  exact ⟨rfl, rfl, rfl, rfl, h⟩

/-- C10 at the scenario's freshly registered session, the remote answering 500. -/
theorem sendMessage_create_failure_changes_nothing_witness :
    (ChatManager.getSession scenarioWorld "C1"
        = some { session_id := "", settings := scenarioSettings, messages := [], stats := none } ∧
      (ChatAPI.createSession scenarioWorld.manager.api failingEnv scenarioWorld scenarioSettings).1
        = .error (.error "Failed to create session: Internal Server Error")) ∧
    ((ChatManager.sendMessage failingEnv scenarioWorld "C1" "hello").1
        = .error (.error "Failed to create session: Internal Server Error") ∧
      (ChatManager.sendMessage failingEnv scenarioWorld "C1" "hello").2.log
        = scenarioWorld.log ++ [scenarioWorld.manager.api.createSessionRequest scenarioSettings] ∧
      (ChatManager.sendMessage failingEnv scenarioWorld "C1" "hello").2.manager
        = scenarioWorld.manager ∧
      (ChatManager.sendMessage failingEnv scenarioWorld "C1" "hello").2.tick = scenarioWorld.tick ∧
      ChatManager.getSession (ChatManager.sendMessage failingEnv scenarioWorld "C1" "hello").2 "C1"
        = some { session_id := "", settings := scenarioSettings, messages := [], stats := none }) :=
  ⟨⟨by decide, rfl⟩,
    sendMessage_create_failure_changes_nothing failingEnv scenarioWorld "C1" "hello"
      { session_id := "", settings := scenarioSettings, messages := [], stats := none }
      (.error "Failed to create session: Internal Server Error") (by decide) rfl rfl⟩

/-- C1: when `sendMessage(C, text)` on a registered chat identifier returns `m`,
the history of the session afterwards is the history before followed by a user
message with content `text` and then by `m`; `m` has role assistant and the
content, timestamp and token_stats of the `assistant_message` with which the
remote answered the send-message request, the last request issued. -/
theorem sendMessage_success_appends_user_then_assistant (env : Env) (w : World)
    (chat_id message : String) (session : ChatSession) (m : ChatMessage)
    (h : ChatManager.getSession w chat_id = some session)
    (hok : (ChatManager.sendMessage env w chat_id message).1 = .ok m) :
    ∃ user_message session1 response statusText log0,
      ChatManager.getSession (ChatManager.sendMessage env w chat_id message).2 chat_id
        = some session1 ∧
      session1.messages = session.messages ++ [user_message, m] ∧
      user_message.role = .user ∧ user_message.content = message ∧
      (ChatManager.sendMessage env w chat_id message).2.log
        = log0 ++ [w.manager.api.sendMessageRequest session1.session_id message
            session1.settings.functions] ∧
      env.remote.sendMessage log0
          (w.manager.api.sendMessageRequest session1.session_id message
            session1.settings.functions)
        = .response true statusText (.ok response) ∧
      m.role = .assistant ∧
      m.content = response.assistant_message.content ∧
      m.timestamp = response.assistant_message.timestamp ∧
      m.token_stats = response.assistant_message.token_stats := by
  obtain ⟨response, statusText, log0, session_id, hlog, hremote, hm, hget⟩ :=
    ChatManager.sendMessage_ok_spec env w chat_id message session m h hok
  refine ⟨_, _, response, statusText, log0, hget, rfl, rfl, rfl, hlog, hremote, ?_, ?_, ?_, ?_⟩
  all_goals rw [hm]

/-- C1 on the scenario: `C1` registered with the scenario's settings, the remote
returning the identifier `abc` and the content `hi there`. -/
theorem sendMessage_success_appends_user_then_assistant_witness :
    (ChatManager.getSession scenarioWorld "C1"
        = some { session_id := "", settings := scenarioSettings, messages := [], stats := none } ∧
      (ChatManager.sendMessage scenarioEnv scenarioWorld "C1" "hello").1
        = .ok { id := "1700000000003", role := .assistant, content := "hi there",
                timestamp := "2023-11-14T22:13:19.000Z", token_stats := none }) ∧
    ∃ user_message session1 response statusText log0,
      ChatManager.getSession (ChatManager.sendMessage scenarioEnv scenarioWorld "C1" "hello").2 "C1"
        = some session1 ∧
      session1.messages = [] ++ [user_message,
        { id := "1700000000003", role := .assistant, content := "hi there",
          timestamp := "2023-11-14T22:13:19.000Z", token_stats := none }] ∧
      user_message.role = .user ∧ user_message.content = "hello" ∧
      (ChatManager.sendMessage scenarioEnv scenarioWorld "C1" "hello").2.log
        = log0 ++ [scenarioWorld.manager.api.sendMessageRequest session1.session_id "hello"
            session1.settings.functions] ∧
      scenarioEnv.remote.sendMessage log0
          (scenarioWorld.manager.api.sendMessageRequest session1.session_id "hello"
            session1.settings.functions)
        = .response true statusText (.ok response) ∧
      Role.assistant = .assistant ∧
      "hi there" = response.assistant_message.content ∧
      "2023-11-14T22:13:19.000Z" = response.assistant_message.timestamp ∧
      none = response.assistant_message.token_stats :=
  ⟨⟨by decide, rfl⟩,
    sendMessage_success_appends_user_then_assistant scenarioEnv scenarioWorld "C1" "hello"
      { session_id := "", settings := scenarioSettings, messages := [], stats := none }
      { id := "1700000000003", role := .assistant, content := "hi there",
        timestamp := "2023-11-14T22:13:19.000Z", token_stats := none } (by decide) rfl⟩

/-- C2, as stated, fails: on the scenario's unprovisioned session with a remote
answering 500, `sendMessage` fails because the create-session call raises, and
the history is as long as before (empty), not one longer. -/
theorem sendMessage_failure_without_user_message :
    ChatManager.hasSession scenarioWorld "C1" = true ∧
    (ChatManager.sendMessage failingEnv scenarioWorld "C1" "hello").1
      = .error (.error "Failed to create session: Internal Server Error") ∧
    (ChatManager.getSession scenarioWorld "C1").map (fun s => s.messages.length) = some 0 ∧
    (ChatManager.getSession (ChatManager.sendMessage failingEnv scenarioWorld "C1" "hello").2
      "C1").map (fun s => s.messages.length) = some 0 :=
  ⟨by decide, rfl, by decide, by decide⟩

/-- C2, amended: when `sendMessage(C, text)` on a registered chat identifier
fails although the session was provisioned (it had a `session_id`, or the
create-session call of the lazy provisioning returned one), that is, because the
send-message call raised, the history afterwards is the history before followed
by exactly one message, the user message with content `text`. -/
theorem sendMessage_send_failure_keeps_user_message (env : Env) (w : World)
    (chat_id message : String) (session : ChatSession) (e : JsError)
    (h : ChatManager.getSession w chat_id = some session)
    (hprov : session.session_id = "" →
      ∃ session_id, (ChatAPI.createSession w.manager.api env w session.settings).1
        = .ok session_id)
    (hfail : (ChatManager.sendMessage env w chat_id message).1 = .error e) :
    ∃ user_message session1,
      ChatManager.getSession (ChatManager.sendMessage env w chat_id message).2 chat_id
        = some session1 ∧
      session1.messages = session.messages ++ [user_message] ∧
      session1.messages.length = session.messages.length + 1 ∧
      user_message.role = .user ∧ user_message.content = message := by
  by_cases hid : session.session_id = ""
  · obtain ⟨sid, hc⟩ := hprov hid
    rw [ChatManager.sendMessage_of_create_ok env w chat_id message session sid h hid hc]
      at hfail ⊢
    obtain ⟨-, hget⟩ := ChatManager.sendMessageExchange_error_spec env _ chat_id message _ e hfail
    exact ⟨_, _, hget, rfl, by simp, rfl, rfl⟩
  · rw [ChatManager.sendMessage_of_provisioned env w chat_id message session h hid] at hfail ⊢
    obtain ⟨-, hget⟩ := ChatManager.sendMessageExchange_error_spec env w chat_id message _ e hfail
    exact ⟨_, _, hget, rfl, by simp, rfl, rfl⟩

/-- C2, amended, on the provisioned scenario session with a remote answering 500. -/
theorem sendMessage_send_failure_keeps_user_message_witness :
    (ChatManager.getSession provisionedWorld "C1"
        = some { session_id := "abc", settings := scenarioSettings,
                 messages :=
                  [{ id := "1700000000000", role := .user, content := "hello",
                     timestamp := "2023-11-14T22:13:20.001Z", token_stats := none },
                   { id := "1700000000003", role := .assistant, content := "hi there",
                     timestamp := "2023-11-14T22:13:19.000Z", token_stats := none }],
                 stats := none } ∧
      (ChatManager.sendMessage failingEnv provisionedWorld "C1" "again").1
        = .error (.error "Failed to send message: Internal Server Error")) ∧
    ∃ user_message session1,
      ChatManager.getSession (ChatManager.sendMessage failingEnv provisionedWorld "C1" "again").2
          "C1" = some session1 ∧
      session1.messages =
        [{ id := "1700000000000", role := .user, content := "hello",
           timestamp := "2023-11-14T22:13:20.001Z", token_stats := none },
         { id := "1700000000003", role := .assistant, content := "hi there",
           timestamp := "2023-11-14T22:13:19.000Z", token_stats := none }] ++ [user_message] ∧
      session1.messages.length = 2 + 1 ∧
      user_message.role = .user ∧ user_message.content = "again" :=
  ⟨⟨by decide, rfl⟩,
    sendMessage_send_failure_keeps_user_message failingEnv provisionedWorld "C1" "again"
      { session_id := "abc", settings := scenarioSettings,
        messages :=
          [{ id := "1700000000000", role := .user, content := "hello",
             timestamp := "2023-11-14T22:13:20.001Z", token_stats := none },
           { id := "1700000000003", role := .assistant, content := "hi there",
             timestamp := "2023-11-14T22:13:19.000Z", token_stats := none }],
        stats := none }
      (.error "Failed to send message: Internal Server Error") (by decide)
      (fun hid => absurd hid (by decide)) rfl⟩

/-- C3, as stated, fails: on the scenario's unprovisioned session with a remote
answering 500, `sendMessage` issues the create-session request and nothing
else; no send-message call follows. -/
theorem sendMessage_unprovisioned_without_send_call :
    ChatManager.getSessionId scenarioWorld "C1" = some "" ∧
    scenarioWorld.log = [] ∧
    (ChatManager.sendMessage failingEnv scenarioWorld "C1" "hello").2.log
      = [scenarioWorld.manager.api.createSessionRequest scenarioSettings] ∧
    (ChatManager.sendMessage failingEnv scenarioWorld "C1" "hello").2.log.length = 1 :=
  ⟨by decide, by decide, by decide, by decide⟩

/-- C3, amended: on a registered session without `session_id`, `sendMessage`
issues the create-session request first; when that call returns an identifier
it is followed by exactly one send-message request carrying that identifier,
the text and the session's functions, and nothing else; when that call raises
nothing else is issued. -/
theorem sendMessage_unprovisioned_requests (env : Env) (w : World) (chat_id message : String)
    (session : ChatSession)
    (h : ChatManager.getSession w chat_id = some session)
    (hid : session.session_id = "") :
    (∀ session_id,
      (ChatAPI.createSession w.manager.api env w session.settings).1 = .ok session_id →
      (ChatManager.sendMessage env w chat_id message).2.log
        = w.log ++ [w.manager.api.createSessionRequest session.settings,
            w.manager.api.sendMessageRequest session_id message session.settings.functions]) ∧
    (∀ e,
      (ChatAPI.createSession w.manager.api env w session.settings).1 = .error e →
      (ChatManager.sendMessage env w chat_id message).2.log
        = w.log ++ [w.manager.api.createSessionRequest session.settings]) := by
  constructor
  · intro sid hc
    rw [ChatManager.sendMessage_of_create_ok env w chat_id message session sid h hid hc,
      ChatManager.sendMessageExchange_log]
    simp
  · intro e hc
    rw [ChatManager.sendMessage_of_create_error env w chat_id message session e h hid hc]
    rfl

/-- C3, amended, on the scenario, whose create-session call returns `abc`. -/
theorem sendMessage_unprovisioned_requests_witness :
    (ChatManager.getSession scenarioWorld "C1"
        = some { session_id := "", settings := scenarioSettings, messages := [], stats := none } ∧
      (ChatAPI.createSession scenarioWorld.manager.api scenarioEnv scenarioWorld
        scenarioSettings).1 = .ok "abc") ∧
    ((∀ session_id,
        (ChatAPI.createSession scenarioWorld.manager.api scenarioEnv scenarioWorld
          scenarioSettings).1 = .ok session_id →
        (ChatManager.sendMessage scenarioEnv scenarioWorld "C1" "hello").2.log
          = scenarioWorld.log ++ [scenarioWorld.manager.api.createSessionRequest scenarioSettings,
              scenarioWorld.manager.api.sendMessageRequest session_id "hello"
                scenarioSettings.functions]) ∧
      (∀ e,
        (ChatAPI.createSession scenarioWorld.manager.api scenarioEnv scenarioWorld
          scenarioSettings).1 = .error e →
        (ChatManager.sendMessage scenarioEnv scenarioWorld "C1" "hello").2.log
          = scenarioWorld.log
            ++ [scenarioWorld.manager.api.createSessionRequest scenarioSettings])) :=
  ⟨⟨by decide, rfl⟩,
    sendMessage_unprovisioned_requests scenarioEnv scenarioWorld "C1" "hello"
      { session_id := "", settings := scenarioSettings, messages := [], stats := none }
      (by decide) rfl⟩

/-- C9, as stated, fails: on the scenario, with a non-decreasing clock, the call
succeeds and the user message's timestamp, read from the local clock, is later
than the assistant message's timestamp, which is the one the remote sent. -/
theorem sendMessage_assistant_timestamp_earlier :
    Monotone scenarioEnv.clock ∧
    (ChatManager.sendMessage scenarioEnv scenarioWorld "C1" "hello").1
      = .ok { id := "1700000000003", role := .assistant, content := "hi there",
              timestamp := "2023-11-14T22:13:19.000Z", token_stats := none } ∧
    (ChatManager.getSession (ChatManager.sendMessage scenarioEnv scenarioWorld "C1" "hello").2
      "C1").map (fun s => s.messages)
      = some [{ id := "1700000000000", role := .user, content := "hello",
                timestamp := "2023-11-14T22:13:20.001Z", token_stats := none },
              { id := "1700000000003", role := .assistant, content := "hi there",
                timestamp := "2023-11-14T22:13:19.000Z", token_stats := none }] ∧
    jsStringLt "2023-11-14T22:13:19.000Z".data "2023-11-14T22:13:20.001Z".data = true :=
  ⟨fun _ _ hab => Nat.add_le_add_left hab _, rfl, by decide, by decide⟩

/-- C9, amended: when `sendMessage(C, text)` returns `m` and the clock is
non-decreasing, the user message pushed by the call has as id the clock reading
at its construction, `m` has as id a later clock reading plus one, and the
former number is strictly less than the latter; the user message's timestamp
is the local clock's next reading, and the timestamp of `m` is the one of the
remote response, whatever it is. -/
theorem sendMessage_success_id_order (env : Env) (w : World) (chat_id message : String)
    (session : ChatSession) (m : ChatMessage)
    (h : ChatManager.getSession w chat_id = some session)
    (hok : (ChatManager.sendMessage env w chat_id message).1 = .ok m)
    (hclock : Monotone env.clock) :
    ∃ user_message session1 response statusText log0,
      ChatManager.getSession (ChatManager.sendMessage env w chat_id message).2 chat_id
        = some session1 ∧
      session1.messages = session.messages ++ [user_message, m] ∧
      user_message.id = toString (env.clock w.tick) ∧
      m.id = toString (env.clock (w.tick + 2) + 1) ∧
      env.clock w.tick < env.clock (w.tick + 2) + 1 ∧
      user_message.timestamp = toISOString (env.clock (w.tick + 1)) ∧
      env.remote.sendMessage log0
          (w.manager.api.sendMessageRequest session1.session_id message
            session1.settings.functions)
        = .response true statusText (.ok response) ∧
      m.timestamp = response.assistant_message.timestamp := by
  obtain ⟨response, statusText, log0, session_id, -, hremote, hm, hget⟩ :=
    ChatManager.sendMessage_ok_spec env w chat_id message session m h hok
  have hlt : env.clock w.tick < env.clock (w.tick + 2) + 1 :=
    Nat.lt_succ_of_le (hclock (Nat.le_add_right w.tick 2))
  refine ⟨_, _, response, statusText, log0, hget, rfl, rfl, ?_, hlt, rfl, hremote, ?_⟩
  all_goals rw [hm]

/-- C9, amended, on the scenario. -/
theorem sendMessage_success_id_order_witness :
    (ChatManager.getSession scenarioWorld "C1"
        = some { session_id := "", settings := scenarioSettings, messages := [], stats := none } ∧
      (ChatManager.sendMessage scenarioEnv scenarioWorld "C1" "hello").1
        = .ok { id := "1700000000003", role := .assistant, content := "hi there",
                timestamp := "2023-11-14T22:13:19.000Z", token_stats := none } ∧
      Monotone scenarioEnv.clock) ∧
    ∃ user_message session1 response statusText log0,
      ChatManager.getSession (ChatManager.sendMessage scenarioEnv scenarioWorld "C1" "hello").2 "C1"
        = some session1 ∧
      session1.messages = [] ++ [user_message,
        { id := "1700000000003", role := .assistant, content := "hi there",
          timestamp := "2023-11-14T22:13:19.000Z", token_stats := none }] ∧
      user_message.id = toString (scenarioEnv.clock scenarioWorld.tick) ∧
      "1700000000003" = toString (scenarioEnv.clock (scenarioWorld.tick + 2) + 1) ∧
      scenarioEnv.clock scenarioWorld.tick < scenarioEnv.clock (scenarioWorld.tick + 2) + 1 ∧
      user_message.timestamp = toISOString (scenarioEnv.clock (scenarioWorld.tick + 1)) ∧
      scenarioEnv.remote.sendMessage log0
          (scenarioWorld.manager.api.sendMessageRequest session1.session_id "hello"
            session1.settings.functions)
        = .response true statusText (.ok response) ∧
      "2023-11-14T22:13:19.000Z" = response.assistant_message.timestamp :=
  ⟨⟨by decide, rfl, fun _ _ hab => Nat.add_le_add_left hab _⟩,
    sendMessage_success_id_order scenarioEnv scenarioWorld "C1" "hello"
      { session_id := "", settings := scenarioSettings, messages := [], stats := none }
      { id := "1700000000003", role := .assistant, content := "hi there",
        timestamp := "2023-11-14T22:13:19.000Z", token_stats := none } (by decide) rfl
      (fun _ _ hab => Nat.add_le_add_left hab _)⟩

/-- C6: `hasSession(C)` is true right after `createChatSession(C, settings)`
(the empty sequence) and after every sequence of manager calls that follows,
whether they return or raise, under every remote and every clock. -/
theorem hasSession_after_createChatSession (env : Env) (w : World) (chat_id : String)
    (settings : ChatSettings) (ops : List Op) :
    ChatManager.hasSession
      (run env (ChatManager.createChatSession w chat_id settings).2 ops) chat_id = true := by
  apply run_has
  simp [ChatManager.createChatSession, JsMap.has_set]

/-- C7, as stated, fails: the provisioned session of the scenario is back to an
empty `session_id` after `createChatSession` on the same chat identifier, and
also after `initializeSession` when the remote reports success with an empty
identifier. -/
theorem provisioned_session_unprovisioned_again :
    ChatManager.getSessionId provisionedWorld "C1" = some "abc" ∧
    ChatManager.getSessionId
      (step scenarioEnv provisionedWorld (.createChatSession "C1" scenarioSettings)) "C1"
      = some "" ∧
    ChatManager.getSessionId
      (step emptyIdEnv provisionedWorld (.initializeSession "C1")) "C1" = some "" :=
  ⟨by decide, by decide, by decide⟩

/-- C7, amended: when the remote never reports a successful create-session with
an empty identifier, a session that has a non-empty `session_id` still has a
non-empty one after every sequence of manager calls that does not re-register
its chat identifier through `createChatSession`. -/
theorem provisioned_is_kept (env : Env) (w : World) (chat_id : String) (ops : List Op)
    (hremote : ∀ log req statusText data,
      env.remote.createSession log req = .response true statusText (.ok data) →
      data.success = true → data.session_id ≠ "")
    (hops : ∀ settings, Op.createChatSession chat_id settings ∉ ops)
    (hprov : ∃ session_id, ChatManager.getSessionId w chat_id = some session_id ∧
      session_id ≠ "") :
    ∃ session_id, ChatManager.getSessionId (run env w ops) chat_id = some session_id ∧
      session_id ≠ "" := by
  induction ops generalizing w with
  | nil => exact hprov
  | cons op rest ih =>
    apply ih (step env w op) (fun settings hmem => hops settings (List.mem_cons_of_mem _ hmem))
    obtain ⟨sid, hget, hsid⟩ := hprov
    unfold ChatManager.getSessionId at hget ⊢
    rcases hs : JsMap.get w.manager.sessions chat_id with _ | session
    · rw [hs] at hget
      simp at hget
    · rw [hs] at hget
      simp only [Option.some.injEq] at hget
      obtain ⟨session1, hget1, hcases⟩ := step_session env w op chat_id session hs
      rw [hget1]
      refine ⟨session1.session_id, rfl, ?_⟩
      rcases hcases with hsame | ⟨settings, hop⟩ | hempty | ⟨-, hc⟩
      · rw [hsame, hget]
        exact hsid
      · exact absurd (hop ▸ List.mem_cons_self _ _) (hops settings)
      · exact absurd (hget ▸ hempty) hsid
      · obtain ⟨statusText, data, hr, hsucc, hdata⟩ :=
          ChatAPI.createSession_ok_remote _ _ _ _ _ hc
        rw [← hdata]
        exact hremote _ _ _ _ hr hsucc

/-- C7, amended, on the scenario's provisioned manager and a sequence of calls
of every kind. -/
theorem provisioned_is_kept_witness :
    ((∀ log req statusText data,
        scenarioEnv.remote.createSession log req = .response true statusText (.ok data) →
        data.success = true → data.session_id ≠ "") ∧
      (∀ settings, Op.createChatSession "C1" settings ∉ scenarioOps) ∧
      (∃ session_id, ChatManager.getSessionId provisionedWorld "C1" = some session_id ∧
        session_id ≠ "")) ∧
    ∃ session_id,
      ChatManager.getSessionId (run scenarioEnv provisionedWorld scenarioOps) "C1"
        = some session_id ∧ session_id ≠ "" :=
  ⟨⟨by
      intro log req statusText data h _
      simp only [scenarioEnv, scenarioRemote, FetchOutcome.response.injEq, Except.ok.injEq,
        true_and] at h
      rw [← h.2]
      decide,
    by intro settings; simp [scenarioOps],
    ⟨"abc", by decide, by decide⟩⟩,
   provisioned_is_kept scenarioEnv provisionedWorld "C1" scenarioOps
    (by
      intro log req statusText data h _
      simp only [scenarioEnv, scenarioRemote, FetchOutcome.response.injEq, Except.ok.injEq,
        true_and] at h
      rw [← h.2]
      decide)
    (by intro settings; simp [scenarioOps])
    ⟨"abc", by decide, by decide⟩⟩

/-- C5, where the code departs from it: with the chat identifiers `__proto__`
and `C2` registered, `updateAllSessions()` returns, and its result has the entry
true for `C2` but no entry for `__proto__`, although `hasSession("__proto__")`
is true: `results["__proto__"] = true` creates no own property of `results`. -/
theorem updateAllSessions_misses_proto_entry :
    ChatManager.hasSession protoWorld "__proto__" = true ∧
    ChatManager.hasSession protoWorld "C2" = true ∧
    (protoWorld.manager.sessions.map Prod.fst).Nodup ∧
    ∃ results, (ChatManager.updateAllSessions scenarioEnv protoWorld).1 = .ok results ∧
      results.own "__proto__" = none ∧ results.own "C2" = some true :=
  ⟨by decide, by decide, by decide, _, rfl, by decide, by decide⟩

end ChatManagerJs
